import Mathlib

/-!
# SCTP endpoint (`ext/sctp/sctp_endpoint.c`)

A shallow embedding of the C extension behind `SCTP::Endpoint`.

* The C struct `endpoint_t` and the instance variables of the Ruby object are
  explicit state (`endpoint_t`, `rb_endpoint`).
* Every call that leaves the function (system call, resolver, Ruby method
  call on `self` or on the message, write to stderr) is recorded, in program
  order, as an `Event`.  What the kernel or the resolver answers is an input
  of the embedded function, one answer for each call made.
* A Ruby exception is the `raise` outcome; `rb_fatal` is the `Fatal`
  exception, `rb_bug` the `Bug` one, and a step of the C program that has no
  defined behaviour ends the run in `Undefined`.
* Numeric constants of the system headers carry their Linux values.
-/

namespace SCTP

/-! ## Constants of the system headers (Linux values) -/

def AF_INET : Int := 2
def AF_INET6 : Int := 10
def PF_INET : Int := 2
def PF_INET6 : Int := 10
def SOCK_STREAM : Int := 1
def SOCK_SEQPACKET : Int := 5
def IPPROTO_TCP : Int := 6
def IPPROTO_SCTP : Int := 132
def AI_PASSIVE : Nat := 1
def AI_ADDRCONFIG : Nat := 32
def EINTR : Nat := 4
def EAGAIN : Nat := 11
def EWOULDBLOCK : Nat := 11
def ECONNRESET : Nat := 104
def MSG_NOTIFICATION : Nat := 32768
def O_NONBLOCK : Int := 2048

/-- First value of `enum sctp_sn_type` is `1 << 15`; the named types follow. -/
def SCTP_ASSOC_CHANGE : Nat := 32769
def SCTP_PEER_ADDR_CHANGE : Nat := 32770
def SCTP_SEND_FAILED : Nat := 32771

def SCTP_COMM_UP : Nat := 0
def SCTP_COMM_LOST : Nat := 1
def SCTP_RESTART : Nat := 2
def SCTP_SHUTDOWN_COMP : Nat := 3
def SCTP_CANT_STR_ASSOC : Nat := 4

/-! ## Data model -/

/-- A raw socket address, as it travels in a Ruby String: its byte length, the
family tag of `struct sockaddr`, and the address and port fields in the form
`inet_ntop` and `ntohs` read them (the port is a `uint16_t`). -/
structure sockaddr where
  sa_len : Nat
  sa_family : Int
  sin_addr : String
  sin_port : Nat
deriving DecidableEq, Repr

/-- One node of the list `getaddrinfo` returns (`ai_next` is the list tail). -/
structure addrinfo where
  ai_family : Int
  ai_addr : sockaddr
deriving DecidableEq, Repr

/-- Ruby values the extension handles.  `Obj` stands for any other object
(no `to_str`, no integer conversion).  A String that holds the raw bytes of a
socket address is a `sockaddr`. -/
inductive VALUE where
  | Qnil
  | Qfalse
  | Qtrue
  | Fixnum (n : Int)
  | Str (s : String)
  | Obj (id : Nat)
deriving DecidableEq, Repr

/-- The macro `RTEST`: everything but `nil` and `false` is true. -/
def RTEST : VALUE → Bool
  | .Qnil => false
  | .Qfalse => false
  | _ => true

/-- The C struct wrapped by the Ruby object.  A null `addrinfo` pointer is the
empty list. -/
structure endpoint_t where
  fd : Int
  af : Int
  socktype : Int
  blocking : Int
  last_ai : List addrinfo
  bind_ai : List addrinfo
deriving DecidableEq, Repr

/-- The Ruby object: the wrapped struct and the instance variables the
extension reads and writes. -/
structure rb_endpoint where
  e : endpoint_t
  peer_host : VALUE
  peer_port : VALUE
  message_class : VALUE
  message_context : VALUE
  connected_flag : VALUE
deriving DecidableEq, Repr

/-- The hints `ellsockaddr` hands to `getaddrinfo`. -/
structure addrinfo_hints where
  ai_flags : Nat
  ai_family : Int
  ai_socktype : Int
  ai_protocol : Int
deriving DecidableEq, Repr

/-- The argument block of `sctp_sendmsg`; `to_ = none` is the null pointer `to`. -/
structure llsendmsg_args_t where
  fd : Int
  msg : String
  len : Nat
  to_ : Option sockaddr
  tolen : Nat
  ppid : Nat
  flags : Nat
  stream_no : Nat
  timetolive : Nat
  context : Nat
deriving DecidableEq, Repr

/-- Everything the extension does to the outside, in program order. -/
inductive Event where
  | sys_socket (pf socktype protocol : Int)
  | sys_setsockopt_events (fd : Int) (data_ev send_failure_ev association_ev : Nat)
  | sys_setsockopt_initmsg (fd : Int) (num_ostreams max_instreams : Nat)
  | sys_close (fd : Int)
  | sys_freeaddrinfo (ai : List addrinfo)
  | sys_getaddrinfo (host port : Option String) (hints : addrinfo_hints)
  | sys_connect (fd : Int) (addr : sockaddr)
  | sys_bind (fd : Int) (addr : sockaddr)
  | sys_listen (fd : Int) (backlog : Int)
  | wait_fd (fd : Int)
  | sys_accept (fd : Int)
  | sys_sendmsg (args : llsendmsg_args_t)
  | sys_recvmsg (fd : Int) (len : Nat)
  | sys_fcntl_getfl (fd : Int)
  | sys_fcntl_setfl (fd : Int) (flags : Int)
  | endpoint_alloc
  | msg_funcall (method : String)
  | self_funcall (method : String) (argv : List VALUE)
  | stderr (text : String)
deriving DecidableEq, Repr

/-- How a call ends when it does not return: a Ruby exception, by the C call
that raises it; `Fatal` for `rb_fatal`; `Bug` for `rb_bug`, which aborts the
interpreter; `Undefined` where the C program leaves defined behaviour (a store
past the end of an array, the string pointer of a value that is no String),
after which nothing is known of the run. -/
inductive Exn where
  | RuntimeError (msg : String)
  | SystemCallError (call : String) (errno : Nat)
  | TypeError
  | RangeError
  | Fatal (msg : String)
  | Bug (msg : String)
  | Undefined (what : String)
deriving DecidableEq, Repr

/-- Result of a call: a value or a raised exception. -/
inductive Outcome (α : Type) where
  | ok (v : α)
  | raise (x : Exn)
deriving DecidableEq, Repr

/-- What a method leaves behind: its outcome, the object afterwards and the
events it produced. -/
structure Ret (α : Type) where
  out : Outcome α
  self : rb_endpoint
  trace : List Event
deriving DecidableEq, Repr

/-- Calls of an event hook on `self` (`post_association_up`,
`post_association_down`, `post_send_failed`). -/
def Event.isHook : Event → Bool
  | .self_funcall _ _ => true
  | _ => false

/-- System calls that release a descriptor. -/
def Event.isClose : Event → Bool
  | .sys_close _ => true
  | _ => false

/-- The descriptor is open: every operation tests `e->fd <= 0` for closed. -/
def isOpen (s : rb_endpoint) : Prop := 0 < s.e.fd

instance (s : rb_endpoint) : Decidable (isOpen s) :=
  inferInstanceAs (Decidable (0 < s.e.fd))

/-! ## Notification dispatch -/

/-- The fields `ellnotdispatch` reads through `union sctp_notification`. -/
structure sctp_notification where
  sn_type : Nat
  sac_state : Nat
  ssf_error : Nat
deriving DecidableEq, Repr

/-- The function `ellnotdispatch`: the two nested `switch` statements.  The result is the
returned value (`Qnil`) and the events. -/
def ellnotdispatch (snp : sctp_notification) (host port : VALUE) : VALUE × List Event :=
  if snp.sn_type = SCTP_ASSOC_CHANGE then
    if snp.sac_state = SCTP_COMM_UP ∨ snp.sac_state = SCTP_RESTART then
      (.Qnil, [.self_funcall "post_association_up" [host, port]])
    else if snp.sac_state = SCTP_COMM_LOST ∨ snp.sac_state = SCTP_SHUTDOWN_COMP
        ∨ snp.sac_state = SCTP_CANT_STR_ASSOC then
      (.Qnil, [.self_funcall "post_association_down" [host, port]])
    else
      (.Qnil, [])
  else if snp.sn_type = SCTP_SEND_FAILED then
    (.Qnil, [.self_funcall "post_send_failed" [host, port, .Fixnum snp.ssf_error]])
  else
    (.Qnil, [.stderr "Unexpected SCTP notification\n"])

/-! ## Answers of the kernel and of the resolver -/

/-- Answer of a system call: the return code and the `errno` it leaves. -/
structure sysret where
  rc : Int
  errno : Nat
deriving DecidableEq, Repr

/-- Answer of `getaddrinfo`: the return code (nonzero on failure), `errno`
after the call, and the list stored through the result pointer on success. -/
structure gai_answer where
  rc : Int
  errno : Nat
  res : List addrinfo
deriving DecidableEq, Repr

/-- Answer of `accept`: return code, `errno`, and the peer address written to
`args.from` / `args.fromlen`. -/
structure accept_answer where
  rc : Int
  errno : Nat
  from_ : sockaddr
deriving DecidableEq, Repr

/-- Answer of `sctp_recvmsg`: return code, `errno`, the Ruby String `str`
after the call (`buf`, still of its allocated length), the sender address, the
stream number of `sinfo`, the message flags, and the buffer as read through
`union sctp_notification`. -/
structure recv_answer where
  rc : Int
  errno : Nat
  buf : String
  from_ : sockaddr
  sinfo_stream : Nat
  flags : Nat
  noti : sctp_notification
deriving DecidableEq, Repr

/-! ## Ruby conversions used by the extension -/

/-- The call `rb_sys_fail(call)` after a failed system call, which has set
`errno`: raises the `SystemCallError` for it. -/
def rb_sys_fail {α : Type} (call : String) (errno : Nat) : Outcome α :=
  .raise (.SystemCallError call errno)

/-- The call `rb_sys_fail(call)` after a call that need not have set `errno`
(`getaddrinfo` reports through its return code): with `errno` at 0
`rb_sys_fail` stops in `rb_bug`, otherwise it raises the `SystemCallError`
for the number it finds there. -/
def rb_sys_fail_unset {α : Type} (call : String) (errno : Nat) : Outcome α :=
  if errno = 0 then .raise (.Bug ("rb_sys_fail(" ++ call ++ ") - errno == 0"))
  else rb_sys_fail call errno

/-- The macro `StringValue`: a String is itself, any other value here has no `to_str`. -/
def StringValue : VALUE → Outcome String
  | .Str s => .ok s
  | _ => .raise .TypeError

/-- The method `to_s` on the values of the embedding. -/
def rb_to_s : VALUE → String
  | .Qnil => ""
  | .Qfalse => "false"
  | .Qtrue => "true"
  | .Fixnum n => toString n
  | .Str s => s
  | .Obj _ => "#<Object>"

/-- The macro `NUM2INT`: a Fixnum in the range of `int`. -/
def NUM2INT : VALUE → Outcome Int
  | .Fixnum n => if n < -2147483648 ∨ 2147483647 < n then .raise .RangeError else .ok n
  | _ => .raise .TypeError

/-- The macro `NUM2UINT`: a Fixnum in the range of `unsigned int`, negative values of
`int` wrapping around. -/
def NUM2UINT : VALUE → Outcome Nat
  | .Fixnum n =>
    if n < -2147483648 ∨ 4294967295 < n then .raise .RangeError
    else .ok (n % 4294967296).toNat
  | _ => .raise .TypeError

/-- The call `rb_str_set_len`: keep the first `n` bytes. -/
def rb_str_set_len (s : String) (n : Nat) : String := ⟨s.data.take n⟩

/-! ## Allocation and release -/

/-- The function `endpoint_alloc`: `Data_Make_Struct` zeroes the struct; no instance
variable is set. -/
def endpoint_alloc : rb_endpoint :=
  { e := { fd := 0, af := 0, socktype := 0, blocking := 0, last_ai := [], bind_ai := [] },
    peer_host := .Qnil, peer_port := .Qnil, message_class := .Qnil,
    message_context := .Qnil, connected_flag := .Qnil }

/-- The function `endpoint_free`: the events of the destructor (the struct itself is gone
afterwards). -/
def endpoint_free (e : endpoint_t) : List Event :=
  (if e.last_ai = [] then [] else [Event.sys_freeaddrinfo e.last_ai]) ++
  (if e.bind_ai = [] then [] else [Event.sys_freeaddrinfo e.bind_ai]) ++
  (if 0 < e.fd then [Event.sys_close e.fd] else [])

/-- The function `ellclose`: release the descriptor when it is open. -/
def ellclose (self : rb_endpoint) : Ret VALUE :=
  if 0 < self.e.fd then
    ⟨.ok .Qnil, { self with e := { self.e with fd := 0 } }, [.sys_close self.e.fd]⟩
  else
    ⟨.ok .Qnil, self, []⟩

/-- The method `ellclose` called `n` times in a row: the object afterwards and all events. -/
def close_times : Nat → rb_endpoint → rb_endpoint × List Event
  | 0, s => (s, [])
  | n + 1, s =>
    let r := ellclose s
    let rest := close_times n r.self
    (rest.1, r.trace ++ rest.2)

/-- The method `ellclose` called `n` times in a row: does any of the calls raise? -/
def close_times_raises : Nat → rb_endpoint → Bool
  | 0, _ => false
  | n + 1, s =>
    match (ellclose s).out with
    | .raise _ => true
    | .ok _ => close_times_raises n (ellclose s).self

/-! ## Address resolution -/

/-- The function `elladdrsock`: host and port of a raw address; `rb_fatal` on a family
other than IPv4 and IPv6. -/
def elladdrsock (sa : sockaddr) : Outcome (VALUE × VALUE) :=
  if sa.sa_family = AF_INET then
    .ok (.Str sa.sin_addr, .Fixnum sa.sin_port)
  else if sa.sa_family = AF_INET6 then
    .ok (.Str sa.sin_addr, .Fixnum sa.sin_port)
  else
    .raise (.Fatal "message from the moon")

/-- The cache slot `ellsockaddr` works on: `bind_ai` when passive, else `last_ai`. -/
def get_ai (self : rb_endpoint) (passive : Bool) : List addrinfo :=
  if passive then self.e.bind_ai else self.e.last_ai

/-- Store through the slot pointer. -/
def set_ai (self : rb_endpoint) (passive : Bool) (l : List addrinfo) : rb_endpoint :=
  if passive then { self with e := { self.e with bind_ai := l } }
  else { self with e := { self.e with last_ai := l } }

/-- The loop `for (tai = *ai; tai && (tai->ai_family != e->af); tai = tai->ai_next);`. -/
def seek (af : Int) : List addrinfo → Option addrinfo
  | [] => none
  | tai :: next => if tai.ai_family ≠ af then seek af next else some tai

/-- The statement `rb_raise(rb_eRuntime, "Cannot resolve %s", RSTRING_PTR(host))`.
The argument is evaluated first: with a host that is a String the
RuntimeError names it; with a nil or false host `RSTRING_PTR` is applied to a
value that is no String, which is undefined. -/
def cannot_resolve {α : Type} : VALUE → Outcome α
  | .Str s => .raise (.RuntimeError ("Cannot resolve " ++ s))
  | _ => .raise (.Undefined "RSTRING_PTR of a value that is no String")

/-- The function `ellsockaddr`.  `gai` is the answer of `getaddrinfo` to the one call made. -/
def ellsockaddr (gai : gai_answer) (self : rb_endpoint) (host port passive : VALUE) :
    Ret sockaddr :=
  let old := get_ai self (RTEST passive)
  let t0 : List Event := if old = [] then [] else [.sys_freeaddrinfo old]
  let s0 := if old = [] then self else set_ai self (RTEST passive) []
  let hostv : Outcome (Option String) :=
    if RTEST host then
      match StringValue host with
      | .ok h => .ok (some h)
      | .raise x => .raise x
    else .ok none
  match hostv with
  | .raise x => ⟨.raise x, s0, t0⟩
  | .ok hostcp =>
    let portcp : Option String := if RTEST port then some (rb_to_s port) else none
    let hints : addrinfo_hints :=
      { ai_flags := AI_ADDRCONFIG ||| (if RTEST passive then AI_PASSIVE else 0),
        ai_family := self.e.af, ai_socktype := SOCK_STREAM, ai_protocol := IPPROTO_TCP }
    let t1 := t0 ++ [.sys_getaddrinfo hostcp portcp hints]
    if gai.rc ≠ 0 then
      ⟨rb_sys_fail_unset "getaddrinfo(3)" gai.errno, s0, t1⟩
    else
      let s1 := set_ai s0 (RTEST passive) gai.res
      match seek self.e.af gai.res with
      | some tai => ⟨.ok tai.ai_addr, s1, t1⟩
      | none => ⟨cannot_resolve host, s1, t1⟩

/-! ## Initialisation -/

/-- The function `ellinit_accepted`: `self` is the freshly allocated object. -/
def ellinit_accepted (self : rb_endpoint) (sockfd : Int) (sa : sockaddr)
    (parent : rb_endpoint) : Outcome rb_endpoint :=
  let e1 : endpoint_t := { self.e with fd := sockfd, af := sa.sa_family, socktype := SOCK_STREAM }
  match elladdrsock sa with
  | .raise x => .raise x
  | .ok hpp =>
    .ok { self with
          e := e1, peer_host := hpp.1, peer_port := hpp.2,
          message_class := parent.message_class,
          message_context := parent.message_context,
          connected_flag := .Qtrue }

/-- The option hash of `llinit`: what `rb_hash_aref` gives for each key (`nil`
for a missing key). -/
structure options where
  ipv6 : VALUE
  one_to_many : VALUE
  streams_in : VALUE
  streams_out : VALUE
deriving DecidableEq, Repr

/-- The stream counts of `sinit`: each `(uint16_t)NUM2UINT(v)` unless `v` is nil. -/
def stream_count (v : VALUE) : Outcome Nat :=
  if v = .Qnil then .ok 0
  else
    match NUM2UINT v with
    | .ok n => .ok (n % 65536)
    | .raise x => .raise x

/-- The function `ellinit`.  `socket_ans`, `events_ans` and `initmsg_ans` are the answers of
`socket` and of the two `setsockopt` calls; `oh = none` is a nil option hash. -/
def ellinit (socket_ans events_ans initmsg_ans : sysret) (self : rb_endpoint)
    (oh : Option options) : Ret Unit :=
  let v6 : Bool := match oh with
    | some o => RTEST o.ipv6
    | none => false
  let many : Bool := match oh with
    | some o => RTEST o.one_to_many
    | none => false
  let pf := if v6 then PF_INET6 else PF_INET
  let af := if v6 then AF_INET6 else AF_INET
  let socktype := if many then SOCK_SEQPACKET else SOCK_STREAM
  let s1 : rb_endpoint :=
    { self with e := { self.e with af := af, socktype := socktype, blocking := 1,
                                   fd := socket_ans.rc } }
  let t1 : List Event := [.sys_socket pf socktype IPPROTO_SCTP]
  if socket_ans.rc = -1 then
    ⟨rb_sys_fail "socket(2)" socket_ans.errno, s1, t1⟩
  else
    let sub : Nat := if socktype = SOCK_SEQPACKET then 1 else 0
    let t2 := t1 ++ [.sys_setsockopt_events s1.e.fd 1 sub sub]
    if events_ans.rc ≠ 0 then
      ⟨rb_sys_fail "notification setsockopt(2)" events_ans.errno, s1, t2⟩
    else
      match oh with
      | none => ⟨.ok (), s1, t2⟩
      | some o =>
        match stream_count o.streams_out with
        | .raise x => ⟨.raise x, s1, t2⟩
        | .ok ostreams =>
          match stream_count o.streams_in with
          | .raise x => ⟨.raise x, s1, t2⟩
          | .ok instreams =>
            let t3 := t2 ++ [.sys_setsockopt_initmsg s1.e.fd ostreams instreams]
            if initmsg_ans.rc ≠ 0 then
              ⟨rb_sys_fail "initmsg setsockopt(2)" initmsg_ans.errno, s1, t3⟩
            else
              ⟨.ok (), s1, t3⟩

/-! ## Connection operations -/

/-- The function `ellconnect`: resolve the destination, then `connect`. -/
def ellconnect (gai : gai_answer) (connect_ans : sysret) (self : rb_endpoint)
    (host port : VALUE) : Ret Unit :=
  if self.e.fd ≤ 0 then
    ⟨.raise (.RuntimeError "Cannot connect closed socket"), self, []⟩
  else
    let r := ellsockaddr gai self host port .Qfalse
    match r.out with
    | .raise x => ⟨.raise x, r.self, r.trace⟩
    | .ok sa =>
      let t := r.trace ++ [.sys_connect self.e.fd sa]
      if connect_ans.rc < 0 then
        ⟨rb_sys_fail "connect(2)" connect_ans.errno, r.self, t⟩
      else
        ⟨.ok (), r.self, t⟩

/-- The function `ellbind`: resolve with passive semantics, then `bind`. -/
def ellbind (gai : gai_answer) (bind_ans : sysret) (self : rb_endpoint)
    (host port : VALUE) : Ret Unit :=
  if self.e.fd ≤ 0 then
    ⟨.raise (.RuntimeError "Cannot bind closed socket"), self, []⟩
  else
    let r := ellsockaddr gai self host port .Qtrue
    match r.out with
    | .raise x => ⟨.raise x, r.self, r.trace⟩
    | .ok sa =>
      let t := r.trace ++ [.sys_bind self.e.fd sa]
      if bind_ans.rc < 0 then
        ⟨rb_sys_fail "bind(2)" bind_ans.errno, r.self, t⟩
      else
        ⟨.ok (), r.self, t⟩

/-- The function `elllisten`: convert the backlog, then `listen`. -/
def elllisten (listen_ans : sysret) (self : rb_endpoint) (backlog : VALUE) : Ret Unit :=
  if self.e.fd ≤ 0 then
    ⟨.raise (.RuntimeError "Cannot listen on closed socket"), self, []⟩
  else
    match NUM2INT backlog with
    | .raise x => ⟨.raise x, self, []⟩
    | .ok n =>
      if listen_ans.rc < 0 then
        ⟨rb_sys_fail "listen(2)" listen_ans.errno, self, [.sys_listen self.e.fd n]⟩
      else
        ⟨.ok (), self, [.sys_listen self.e.fd n]⟩

/-- The blocking branch of `ellaccept`:
`while (rb_thread_wait_fd(fd), !RTEST(inner(&args))) { rb_sys_fail("accept(2)"); }`.
One round takes one answer of the kernel; the body is `rb_sys_fail`, which
raises and so leaves the loop. `none`: the script holds no answer. -/
def accept_blocking (fd : Int) : List accept_answer → Option (Outcome accept_answer × List Event)
  | [] => none
  | a :: _ =>
    if a.rc < 0 then
      some (rb_sys_fail "accept(2)" a.errno, [.wait_fd fd, .sys_accept fd])
    else
      some (.ok a, [.wait_fd fd, .sys_accept fd])

/-- The non-blocking branch of `ellaccept`; the value `none` is the early
`return Qnil`. -/
def accept_nonblocking (fd : Int) :
    List accept_answer → Option (Outcome (Option accept_answer) × List Event)
  | [] => none
  | a :: _ =>
    if a.rc < 0 then
      if a.errno = EAGAIN ∨ a.errno = EWOULDBLOCK then
        some (.ok none, [.sys_accept fd])
      else
        some (rb_sys_fail "accept(2)" a.errno, [.sys_accept fd])
    else
      some (.ok (some a), [.sys_accept fd])

/-- The tail of `ellaccept`: wrap the accepted descriptor in a new endpoint. -/
def accept_finish (self : rb_endpoint) (a : accept_answer) (t : List Event) :
    Ret (Option rb_endpoint) :=
  match ellinit_accepted endpoint_alloc a.rc a.from_ self with
  | .raise x => ⟨.raise x, self, t ++ [.endpoint_alloc]⟩
  | .ok nep => ⟨.ok (some nep), self, t ++ [.endpoint_alloc]⟩

/-- The function `ellaccept`.  `script` holds the answers of the kernel to the successive
`accept` calls; the value `none` of the outcome is `Qnil`. -/
def ellaccept (script : List accept_answer) (self : rb_endpoint) :
    Option (Ret (Option rb_endpoint)) :=
  if self.e.fd ≤ 0 then
    some ⟨.raise (.RuntimeError "Cannot accept on closed socket"), self, []⟩
  else if self.e.blocking ≠ 0 then
    match accept_blocking self.e.fd script with
    | none => none
    | some (.raise x, t) => some ⟨.raise x, self, t⟩
    | some (.ok a, t) => some (accept_finish self a t)
  else
    match accept_nonblocking self.e.fd script with
    | none => none
    | some (.raise x, t) => some ⟨.raise x, self, t⟩
    | some (.ok none, t) => some ⟨.ok none, self, t⟩
    | some (.ok (some a), t) => some (accept_finish self a t)

/-! ## Message input and output -/

/-- The message handed to `llsendmsg`, by what its accessors answer.  `string`
is the payload; for the others `none` says the message does not respond to
the method.  The value of `sockaddr` is nil or false (`none`) or a String of
raw address bytes. -/
structure message where
  string : String
  sockaddr : Option (Option SCTP.sockaddr)
  host : Option VALUE
  port : Option VALUE
  stream : Option VALUE
deriving DecidableEq, Repr

/-- The message `rb_class_new_instance` builds from five arguments (payload,
host, port, stream, context) for the receiver class `klass`. -/
structure Message where
  klass : VALUE
  payload : String
  host : VALUE
  port : VALUE
  stream : Int
  context : VALUE
deriving DecidableEq, Repr

/-- The number of slots of the local array `VALUE msginit_argv[1]`. -/
def msginit_argv_slots : Nat := 1

/-- The stores `argv[i] = v`, `argv[i + 1] = ...` for the values in turn, into
a C array of `slots` slots: the index of the first store past the end of the
array, if there is one. -/
def first_store_past_end (slots : Nat) : Nat → List VALUE → Option Nat
  | _, [] => none
  | i, _ :: vs => if i < slots then first_store_past_end slots (i + 1) vs else some i

/-- Lines 616 to 624 of `ellrecvmsg`: the five stores into `msginit_argv`, from
index 0 on, and `rb_class_new_instance(5, msginit_argv, klass)`.  A store past
the end of the array is undefined behaviour; the Message is built when all
five stores are inside the array. -/
def msginit (klass : VALUE) (payload : String) (host port : VALUE) (stream : Int)
    (context : VALUE) : Outcome (Option Message) :=
  match first_store_past_end msginit_argv_slots 0
      [.Str payload, host, port, .Fixnum stream, context] with
  | some _ => .raise (.Undefined "store past the end of msginit_argv")
  | none => .ok (some { klass := klass, payload := payload, host := host, port := port,
                        stream := stream, context := context })

/-- Lines 431 to 451 of `ellsendmsg`: the payload accessor and the destination
address.  The result is the value of `sockaddr` (`none` when it is not true). -/
def sendmsg_dest (gai : gai_answer) (self : rb_endpoint) (msg : message) :
    Ret (Option sockaddr) :=
  let t0 : List Event := [.msg_funcall "string"]
  let t1 := t0 ++ (if msg.sockaddr.isSome then [Event.msg_funcall "sockaddr"] else [])
  match msg.sockaddr.join with
  | some sa => ⟨.ok (some sa), self, t1⟩
  | none =>
    let msg_host := msg.host.getD .Qnil
    let msg_port := msg.port.getD .Qnil
    let t2 := t1 ++ (if msg.host.isSome then [Event.msg_funcall "host"] else [])
                 ++ (if msg.port.isSome then [Event.msg_funcall "port"] else [])
    if RTEST msg_host && RTEST msg_port then
      let r := ellsockaddr gai self msg_host msg_port .Qfalse
      match r.out with
      | .raise x => ⟨.raise x, r.self, t2 ++ r.trace⟩
      | .ok sa => ⟨.ok (some sa), r.self, t2 ++ r.trace⟩
    else
      ⟨.ok none, self, t2⟩

/-- Lines 453 to 460 of `ellsendmsg`: the stream number. -/
def sendmsg_stream (msg : message) : Outcome Nat :=
  let msg_stream := msg.stream.getD .Qnil
  if msg_stream = .Qnil then .ok 0
  else
    match NUM2UINT msg_stream with
    | .ok n => .ok (n % 65536)
    | .raise x => .raise x

/-- Lines 429 to 468 of `ellsendmsg`: the argument block for `sctp_sendmsg`,
zeroed by `memset` and then filled. -/
def sendmsg_args (gai : gai_answer) (self : rb_endpoint) (msg : message) :
    Ret llsendmsg_args_t :=
  let d := sendmsg_dest gai self msg
  match d.out with
  | .raise x => ⟨.raise x, d.self, d.trace⟩
  | .ok dest =>
    let t := d.trace ++ (if msg.stream.isSome then [Event.msg_funcall "stream"] else [])
    match sendmsg_stream msg with
    | .raise x => ⟨.raise x, d.self, t⟩
    | .ok stream_no =>
      ⟨.ok { fd := self.e.fd, msg := msg.string, len := msg.string.length,
             to_ := dest,
             tolen := match dest with
               | some sa => sa.sa_len
               | none => 0,
             ppid := 0, flags := 0, stream_no := stream_no, timetolive := 0, context := 0 },
        d.self, t⟩

/-- The function `ellsendmsg`.  `send_ans` is the answer of the kernel to the one
`sctp_sendmsg` call; the value `none` of the outcome is `Qnil`. -/
def ellsendmsg (gai : gai_answer) (send_ans : sysret) (self : rb_endpoint)
    (msg : message) : Ret (Option Int) :=
  if self.e.fd ≤ 0 then
    ⟨.raise (.RuntimeError "Cannot sendmsg to closed socket"), self, []⟩
  else
    let a := sendmsg_args gai self msg
    match a.out with
    | .raise x => ⟨.raise x, a.self, a.trace⟩
    | .ok args =>
      let t := a.trace ++ [.sys_sendmsg args]
      if self.e.blocking ≠ 0 then
        if send_ans.rc < 0 then
          ⟨rb_sys_fail "sctp_sendmsg(2)" send_ans.errno, a.self, t⟩
        else
          ⟨.ok (some send_ans.rc), a.self, t⟩
      else
        if send_ans.rc < 0 then
          if send_ans.errno = EAGAIN ∨ send_ans.errno = EWOULDBLOCK then
            ⟨.ok none, a.self, t⟩
          else
            ⟨rb_sys_fail "sctp_recvmsg(2)" send_ans.errno, a.self, t⟩
        else
          ⟨.ok (some send_ans.rc), a.self, t⟩

/-- The events of one receive attempt: in blocking mode the wait on the
descriptor comes first. -/
def recv_attempt (self : rb_endpoint) (maxlen : Nat) : List Event :=
  if self.e.blocking ≠ 0 then [.wait_fd self.e.fd, .sys_recvmsg self.e.fd maxlen]
  else [.sys_recvmsg self.e.fd maxlen]

/-- The loop `while (1)` of `ellrecvmsg` and the construction of the Message
after it (`msginit`).  Each round takes one answer of the kernel from the script; `none`:
the script ran out before the loop was left.  In blocking mode the inner
`while` has `rb_sys_fail` as its body, which raises. -/
def recvmsg_loop (self : rb_endpoint) (maxlen : Nat) :
    List recv_answer → Option (Outcome (Option Message) × List Event)
  | [] => none
  | a :: rest =>
    if a.rc < 0 then
      if self.e.blocking ≠ 0 then
        some (rb_sys_fail "sctp_recvmsg(2)" a.errno, recv_attempt self maxlen)
      else if a.errno = EAGAIN ∨ a.errno = EWOULDBLOCK then
        some (.ok none, recv_attempt self maxlen)
      else
        some (rb_sys_fail "sctp_recvmsg(2)" a.errno, recv_attempt self maxlen)
    else
      let str := if a.rc < a.buf.length then rb_str_set_len a.buf a.rc.toNat else a.buf
      match elladdrsock a.from_ with
      | .raise x => some (.raise x, recv_attempt self maxlen)
      | .ok hpp =>
        if a.flags &&& MSG_NOTIFICATION ≠ 0 then
          match recvmsg_loop self maxlen rest with
          | none => none
          | some (o, t) =>
            some (o, recv_attempt self maxlen ++ (ellnotdispatch a.noti hpp.1 hpp.2).2 ++ t)
        else
          some (msginit self.message_class str hpp.1 hpp.2 a.sinfo_stream
                  self.message_context,
                recv_attempt self maxlen)

/-- The function `ellrecvmsg`.  `script` holds the answers of the kernel to the successive
`sctp_recvmsg` calls; the value `none` of the outcome is `Qnil`. -/
def ellrecvmsg (script : List recv_answer) (self : rb_endpoint) (maxlen : Nat) :
    Option (Ret (Option Message)) :=
  if self.e.fd ≤ 0 then
    some ⟨.raise (.RuntimeError "Cannot recvmsg from closed socket"), self, []⟩
  else
    match recvmsg_loop self maxlen script with
    | none => none
    | some (o, t) => some ⟨o, self, t⟩

/-- Receive attempts among the events. -/
def Event.isRecv : Event → Bool
  | .sys_recvmsg _ _ => true
  | _ => false

/-- Accept attempts among the events. -/
def Event.isAccept : Event → Bool
  | .sys_accept _ => true
  | _ => false

/-- Send attempts among the events. -/
def Event.isSend : Event → Bool
  | .sys_sendmsg _ => true
  | _ => false

/-! ## Blocking mode of the descriptor -/

/-- The function `ellblock`.  `fl` is the status-flag word the kernel keeps for
the descriptor, which `fcntl(F_GETFL)` returns. -/
def ellblock (fl : Int) (self : rb_endpoint) : Ret VALUE :=
  if self.e.fd ≤ 0 then
    ⟨.raise (.RuntimeError "Cannot get blocking on closed socket"), self, []⟩
  else
    let flags := fl
    if Int.land flags O_NONBLOCK ≠ 0 then
      ⟨.ok .Qfalse, self, [.sys_fcntl_getfl self.e.fd]⟩
    else
      ⟨.ok .Qtrue, self, [.sys_fcntl_getfl self.e.fd]⟩

/-- The function `ellblockassign`.  `fl` is the status-flag word the kernel
keeps for the descriptor: `fcntl(F_GETFL)` returns it and `fcntl(F_SETFL)`
stores its argument as the new word (the bits `F_SETFL` does not change are
those `F_GETFL` has just returned).  The second component of the result is
the word afterwards; `flags & ~O_NONBLOCK` and `flags | O_NONBLOCK` are the
bitwise operations on `int`. -/
def ellblockassign (fl : Int) (self : rb_endpoint) (blockp : VALUE) : Ret VALUE × Int :=
  if self.e.fd ≤ 0 then
    (⟨.raise (.RuntimeError "Cannot set blocking on closed socket"), self, []⟩, fl)
  else if RTEST blockp then
    let flags := fl
    let arg := Int.land flags (Int.lnot O_NONBLOCK)
    (⟨.ok blockp, { self with e := { self.e with blocking := 1 } },
       [.sys_fcntl_getfl self.e.fd, .sys_fcntl_setfl self.e.fd arg]⟩, arg)
  else
    let flags := fl
    let arg := Int.lor flags O_NONBLOCK
    (⟨.ok blockp, { self with e := { self.e with blocking := 0 } },
       [.sys_fcntl_getfl self.e.fd, .sys_fcntl_setfl self.e.fd arg]⟩, arg)

/-! ## Vocabulary of the statements -/

/-- The families `elladdrsock` decodes. -/
def decodable (sa : sockaddr) : Prop := sa.sa_family = AF_INET ∨ sa.sa_family = AF_INET6

instance (sa : sockaddr) : Decidable (decodable sa) :=
  inferInstanceAs (Decidable (sa.sa_family = AF_INET ∨ sa.sa_family = AF_INET6))

/-- A successful receive that `ellrecvmsg` treats as a notification: the test
`args.flags & MSG_NOTIFICATION`. -/
def is_notification (a : recv_answer) : Prop :=
  0 ≤ a.rc ∧ decodable a.from_ ∧ a.flags &&& MSG_NOTIFICATION ≠ 0

instance (a : recv_answer) : Decidable (is_notification a) :=
  inferInstanceAs (Decidable (0 ≤ a.rc ∧ decodable a.from_ ∧ a.flags &&& MSG_NOTIFICATION ≠ 0))

/-- A successful receive that `ellrecvmsg` treats as application data. -/
def is_data (a : recv_answer) : Prop :=
  0 ≤ a.rc ∧ decodable a.from_ ∧ a.flags &&& MSG_NOTIFICATION = 0

instance (a : recv_answer) : Decidable (is_data a) :=
  inferInstanceAs (Decidable (0 ≤ a.rc ∧ decodable a.from_ ∧ a.flags &&& MSG_NOTIFICATION = 0))

/-- The events of receiving the notifications `ns` one after the other and
handing each to `ellnotdispatch` with the host and port of its sender. -/
def dispatch_events (self : rb_endpoint) (maxlen : Nat) : List recv_answer → List Event
  | [] => []
  | a :: ns =>
    recv_attempt self maxlen
      ++ (ellnotdispatch a.noti (.Str a.from_.sin_addr) (.Fixnum a.from_.sin_port)).2
      ++ dispatch_events self maxlen ns

/-- The hook calls the notifications `ns` lead to, in order. -/
def hook_calls : List recv_answer → List Event
  | [] => []
  | a :: ns =>
    (ellnotdispatch a.noti (.Str a.from_.sin_addr) (.Fixnum a.from_.sin_port)).2.filter
        Event.isHook
      ++ hook_calls ns

/-- An outcome that is a `SystemCallError`. -/
def isSystemError {α : Type} : Outcome α → Bool
  | .raise (.SystemCallError _ _) => true
  | _ => false

/-- An outcome that is a `RuntimeError`. -/
def isRuntimeError {α : Type} : Outcome α → Bool
  | .raise (.RuntimeError _) => true
  | _ => false

/-! ## Sample values -/

/-- An Open endpoint in blocking mode, as `llinit` leaves it for IPv4 and
one-to-many, with a message class and context set. -/
def sample_endpoint : rb_endpoint :=
  { e := { fd := 5, af := AF_INET, socktype := SOCK_SEQPACKET, blocking := 1,
           last_ai := [], bind_ai := [] },
    peer_host := .Qnil, peer_port := .Qnil, message_class := .Obj 2,
    message_context := .Obj 1, connected_flag := .Qnil }

/-- The same endpoint after `llblock = false`. -/
def sample_nonblocking : rb_endpoint :=
  { sample_endpoint with e := { sample_endpoint.e with blocking := 0 } }

/-- The same endpoint after `llclose`. -/
def sample_closed : rb_endpoint :=
  { sample_endpoint with e := { sample_endpoint.e with fd := 0 } }

/-- The address 127.0.0.1, port 9000. -/
def sample_addr : sockaddr := ⟨16, AF_INET, "127.0.0.1", 9000⟩

/-- An address with the family left at zero. -/
def sample_addr_unspec : sockaddr := ⟨0, 0, "", 0⟩

/-- An association-up notification of 20 bytes in a buffer of 24. -/
def sample_notification : recv_answer :=
  ⟨20, 0, "nnnnnnnnnnnnnnnnnnnnnnnn", sample_addr, 0, MSG_NOTIFICATION,
    ⟨SCTP_ASSOC_CHANGE, SCTP_COMM_UP, 0⟩⟩

/-- The same notification with the sender address left at family zero. -/
def sample_notification_unspec : recv_answer :=
  { sample_notification with from_ := sample_addr_unspec }

/-- Four bytes of data on stream 2 in a buffer of 8. -/
def sample_data : recv_answer := ⟨4, 0, "pingzzzz", sample_addr, 2, 0, ⟨0, 0, 0⟩⟩

/-- A receive that failed with the given `errno`. -/
def sample_recv_failure (errno : Nat) : recv_answer :=
  ⟨-1, errno, "zzzzzzzz", sample_addr_unspec, 0, 0, ⟨0, 0, 0⟩⟩

/-- A message with payload, host, port and stream 2. -/
def sample_message : message :=
  ⟨"ping", none, some (.Str "127.0.0.1"), some (.Str "9000"), some (.Fixnum 2)⟩

/-- A resolver answer with an IPv6 entry before the IPv4 entry. -/
def sample_gai : gai_answer :=
  ⟨0, 0, [⟨AF_INET6, ⟨28, AF_INET6, "::1", 9000⟩⟩, ⟨AF_INET, sample_addr⟩]⟩

/-! ## Theorems -/

/-- C1: dispatch follows the dispatch table.  It always returns nil; an
association change with state up or restarted calls the association-up hook
once with (host, port); with state communication-lost, shutdown-complete or
cannot-start-association it calls the association-down hook once; with any
other state it does nothing; a send-failed notification calls the send-failed
hook once with (host, port, error code of the notification); any other type
calls no hook and only writes a line to stderr. -/
theorem ellnotdispatch_table (snp : sctp_notification) (host port : VALUE) :
    (ellnotdispatch snp host port).1 = VALUE.Qnil ∧
    (snp.sn_type = SCTP_ASSOC_CHANGE →
      snp.sac_state = SCTP_COMM_UP ∨ snp.sac_state = SCTP_RESTART →
      (ellnotdispatch snp host port).2
        = [Event.self_funcall "post_association_up" [host, port]]) ∧
    (snp.sn_type = SCTP_ASSOC_CHANGE →
      snp.sac_state = SCTP_COMM_LOST ∨ snp.sac_state = SCTP_SHUTDOWN_COMP
        ∨ snp.sac_state = SCTP_CANT_STR_ASSOC →
      (ellnotdispatch snp host port).2
        = [Event.self_funcall "post_association_down" [host, port]]) ∧
    (snp.sn_type = SCTP_ASSOC_CHANGE →
      snp.sac_state ≠ SCTP_COMM_UP → snp.sac_state ≠ SCTP_RESTART →
      snp.sac_state ≠ SCTP_COMM_LOST → snp.sac_state ≠ SCTP_SHUTDOWN_COMP →
      snp.sac_state ≠ SCTP_CANT_STR_ASSOC →
      (ellnotdispatch snp host port).2 = []) ∧
    (snp.sn_type = SCTP_SEND_FAILED →
      (ellnotdispatch snp host port).2
        = [Event.self_funcall "post_send_failed"
            [host, port, VALUE.Fixnum snp.ssf_error]]) ∧
    (snp.sn_type ≠ SCTP_ASSOC_CHANGE → snp.sn_type ≠ SCTP_SEND_FAILED →
      (ellnotdispatch snp host port).2 = [Event.stderr "Unexpected SCTP notification\n"] ∧
      (ellnotdispatch snp host port).2.filter Event.isHook = []) := by
  refine ⟨?_, ?_, ?_, ?_, ?_, ?_⟩
  · unfold ellnotdispatch
    split_ifs <;> rfl
  · intro ht hs
    simp [ellnotdispatch, ht, hs]
  · intro ht hs
    have h1 : ¬ (snp.sac_state = SCTP_COMM_UP ∨ snp.sac_state = SCTP_RESTART) := by
      rcases hs with h | h | h <;> simp [h, SCTP_COMM_UP, SCTP_RESTART, SCTP_COMM_LOST,
        SCTP_SHUTDOWN_COMP, SCTP_CANT_STR_ASSOC]
    simp [ellnotdispatch, ht, h1, hs]
  · intro ht h1 h2 h3 h4 h5
    simp [ellnotdispatch, ht, h1, h2, h3, h4, h5]
  · intro ht
    simp [ellnotdispatch, ht, SCTP_ASSOC_CHANGE, SCTP_SEND_FAILED]
  · intro h1 h2
    simp [ellnotdispatch, h1, h2, Event.isHook]

/-- C1, at concrete notifications: one of each row of the table. -/
theorem ellnotdispatch_table_witness :
    ellnotdispatch ⟨SCTP_ASSOC_CHANGE, SCTP_COMM_UP, 0⟩ (.Str "10.0.0.1") (.Fixnum 9000)
      = (.Qnil, [.self_funcall "post_association_up" [.Str "10.0.0.1", .Fixnum 9000]]) ∧
    ellnotdispatch ⟨SCTP_ASSOC_CHANGE, SCTP_COMM_LOST, 0⟩ (.Str "10.0.0.1") (.Fixnum 9000)
      = (.Qnil, [.self_funcall "post_association_down" [.Str "10.0.0.1", .Fixnum 9000]]) ∧
    ellnotdispatch ⟨SCTP_SEND_FAILED, 0, 7⟩ (.Str "10.0.0.1") (.Fixnum 9000)
      = (.Qnil, [.self_funcall "post_send_failed"
          [.Str "10.0.0.1", .Fixnum 9000, .Fixnum 7]]) ∧
    ellnotdispatch ⟨SCTP_PEER_ADDR_CHANGE, 0, 0⟩ (.Str "10.0.0.1") (.Fixnum 9000)
      = (.Qnil, [.stderr "Unexpected SCTP notification\n"]) := by
  have h1 := ellnotdispatch_table ⟨SCTP_ASSOC_CHANGE, SCTP_COMM_UP, 0⟩
    (.Str "10.0.0.1") (.Fixnum 9000)
  have h2 := ellnotdispatch_table ⟨SCTP_ASSOC_CHANGE, SCTP_COMM_LOST, 0⟩
    (.Str "10.0.0.1") (.Fixnum 9000)
  have h3 := ellnotdispatch_table ⟨SCTP_SEND_FAILED, 0, 7⟩
    (.Str "10.0.0.1") (.Fixnum 9000)
  have h4 := ellnotdispatch_table ⟨SCTP_PEER_ADDR_CHANGE, 0, 0⟩
    (.Str "10.0.0.1") (.Fixnum 9000)
  refine ⟨Prod.ext h1.1 (h1.2.1 rfl (Or.inl rfl)), Prod.ext h2.1 (h2.2.2.1 rfl (Or.inl rfl)),
    Prod.ext h3.1 (h3.2.2.2.2.1 rfl),
    Prod.ext h4.1 (h4.2.2.2.2.2 (by decide) (by decide)).1⟩

/-! ### Receiving -/

/-- A decodable address gives its host and port. -/
theorem elladdrsock_decodable (sa : sockaddr) (h : decodable sa) :
    elladdrsock sa = .ok (.Str sa.sin_addr, .Fixnum sa.sin_port) := by
  unfold elladdrsock
  rcases h with h | h
  · simp [h]
  · simp [h]

/-- Cutting the buffer at the received length: the branch that leaves the
String alone is the one where nothing is cut. -/
theorem truncate_received (buf : String) (rc : Int) (h : 0 ≤ rc) :
    (if rc < buf.length then rb_str_set_len buf rc.toNat else buf)
      = rb_str_set_len buf rc.toNat := by
  split_ifs with hlt
  · rfl
  · have hle : buf.data.length ≤ rc.toNat := by
      have : (buf.length : Int) ≤ rc := not_lt.mp hlt
      have h2 : buf.length = buf.data.length := rfl
      omega
    unfold rb_str_set_len
    rw [List.take_of_length_le hle]

/-- The receive loop passes over a run of notifications: each is received and
dispatched, and the loop goes on with the rest of the script. -/
theorem recvmsg_loop_notifications (self : rb_endpoint) (maxlen : Nat)
    (ns tail : List recv_answer) (hns : ∀ a ∈ ns, is_notification a) :
    recvmsg_loop self maxlen (ns ++ tail)
      = (recvmsg_loop self maxlen tail).map
          (fun r => (r.1, dispatch_events self maxlen ns ++ r.2)) := by
  induction ns with
  | nil => simp [dispatch_events]
  | cons a ns ih =>
    have ha : is_notification a := hns a (List.mem_cons_self _ _)
    have hrest : ∀ b ∈ ns, is_notification b := fun b hb => hns b (List.mem_cons_of_mem _ hb)
    obtain ⟨hrc, hdec, hflag⟩ := ha
    rw [List.cons_append, recvmsg_loop, ih hrest]
    simp only [not_lt.mpr hrc, if_false, elladdrsock_decodable _ hdec, hflag, ne_eq,
      not_false_eq_true, if_true]
    cases recvmsg_loop self maxlen tail with
    | none => rfl
    | some r => simp [dispatch_events, List.append_assoc]

/-- A successful receive whose sender address is of no family `elladdrsock`
decodes ends the call in `rb_fatal`, after the one attempt that brought it. -/
theorem recvmsg_loop_fatal (self : rb_endpoint) (maxlen : Nat) (a : recv_answer)
    (rest : List recv_answer) (hrc : 0 ≤ a.rc) (hdec : ¬ decodable a.from_) :
    recvmsg_loop self maxlen (a :: rest)
      = some (.raise (.Fatal "message from the moon"), recv_attempt self maxlen) := by
  have hraise : elladdrsock a.from_ = .raise (.Fatal "message from the moon") := by
    unfold elladdrsock
    have h1 : ¬ a.from_.sa_family = AF_INET := fun h => hdec (Or.inl h)
    have h2 : ¬ a.from_.sa_family = AF_INET6 := fun h => hdec (Or.inr h)
    simp [h1, h2]
  unfold recvmsg_loop
  simp only [not_lt.mpr hrc, if_false, hraise]

/-- The five stores into `msginit_argv` do not fit its one slot: the store at
index 1 is the first past the end, so the construction of the Message is
undefined whatever the datum. -/
theorem msginit_undefined (klass : VALUE) (payload : String) (host port : VALUE)
    (stream : Int) (context : VALUE) :
    first_store_past_end msginit_argv_slots 0
        [.Str payload, host, port, .Fixnum stream, context] = some 1 ∧
    msginit klass payload host port stream context
      = .raise (.Undefined "store past the end of msginit_argv") := by
  constructor <;> rfl

/-- C3: on a Closed endpoint (descriptor not positive) connect, bind, listen,
accept, sendmsg and recvmsg each raise the RuntimeError that reports the
closed socket, with no event at all (no system call, no resolver call, no
accessor call on the message) and with the endpoint, cached addresses
included, unchanged. -/
theorem closed_endpoint_operations_fail (self : rb_endpoint) (gai : gai_answer)
    (ans : sysret) (accepts : List accept_answer) (recvs : List recv_answer)
    (host port backlog : VALUE) (msg : message) (maxlen : Nat)
    (hclosed : ¬ isOpen self) :
    ellconnect gai ans self host port
      = ⟨.raise (.RuntimeError "Cannot connect closed socket"), self, []⟩ ∧
    ellbind gai ans self host port
      = ⟨.raise (.RuntimeError "Cannot bind closed socket"), self, []⟩ ∧
    elllisten ans self backlog
      = ⟨.raise (.RuntimeError "Cannot listen on closed socket"), self, []⟩ ∧
    ellaccept accepts self
      = some ⟨.raise (.RuntimeError "Cannot accept on closed socket"), self, []⟩ ∧
    ellsendmsg gai ans self msg
      = ⟨.raise (.RuntimeError "Cannot sendmsg to closed socket"), self, []⟩ ∧
    ellrecvmsg recvs self maxlen
      = some ⟨.raise (.RuntimeError "Cannot recvmsg from closed socket"), self, []⟩ := by
  have hfd : self.e.fd ≤ 0 := not_lt.mp hclosed
  refine ⟨?_, ?_, ?_, ?_, ?_, ?_⟩
  · simp [ellconnect, hfd]
  · simp [ellbind, hfd]
  · simp [elllisten, hfd]
  · simp [ellaccept, hfd]
  · simp [ellsendmsg, hfd]
  · simp [ellrecvmsg, hfd]

/-- C3, at a closed endpoint that has answers waiting in the kernel. -/
theorem closed_endpoint_operations_fail_witness :
    ¬ isOpen sample_closed ∧
    ellsendmsg sample_gai ⟨4, 0⟩ sample_closed sample_message
      = ⟨.raise (.RuntimeError "Cannot sendmsg to closed socket"), sample_closed, []⟩ ∧
    ellrecvmsg [sample_data] sample_closed 4096
      = some ⟨.raise (.RuntimeError "Cannot recvmsg from closed socket"), sample_closed, []⟩ :=
  have h := closed_endpoint_operations_fail sample_closed sample_gai ⟨4, 0⟩ [] [sample_data]
    (.Str "127.0.0.1") (.Fixnum 9000) (.Fixnum 5) sample_message 4096 (by decide)
  ⟨by decide, h.2.2.2.2.1, h.2.2.2.2.2⟩

/-! ### Closing -/

/-- Closing a Closed endpoint does nothing. -/
theorem ellclose_closed (self : rb_endpoint) (h : self.e.fd ≤ 0) :
    ellclose self = ⟨.ok .Qnil, self, []⟩ := by
  simp [ellclose, not_lt.mpr h]

/-- Any number of closes of a Closed endpoint does nothing. -/
theorem close_times_closed (n : Nat) (self : rb_endpoint) (h : self.e.fd ≤ 0) :
    close_times n self = (self, []) ∧ close_times_raises n self = false := by
  induction n with
  | zero => simp [close_times, close_times_raises]
  | succ n ih => simp [close_times, close_times_raises, ellclose_closed self h, ih]

/-- C4: on an Open endpoint, `n + 1` calls of close never raise, issue one
close of the descriptor (the first call does, no later call issues anything)
and leave the endpoint Closed; the destructor run afterwards does not close
the descriptor again, so that closes followed by destruction release the
descriptor exactly once. -/
theorem ellclose_idempotent (self : rb_endpoint) (n : Nat) (hopen : isOpen self) :
    close_times_raises (n + 1) self = false ∧
    (ellclose self).trace = [Event.sys_close self.e.fd] ∧
    (∀ m, (close_times m (ellclose self).self).2 = []) ∧
    (close_times (n + 1) self).2 = [Event.sys_close self.e.fd] ∧
    ¬ isOpen (close_times (n + 1) self).1 ∧
    (endpoint_free (close_times (n + 1) self).1.e).filter Event.isClose = [] ∧
    ((close_times (n + 1) self).2 ++ endpoint_free (close_times (n + 1) self).1.e).filter
        Event.isClose = [Event.sys_close self.e.fd] := by
  have hfd : 0 < self.e.fd := hopen
  have hc : ellclose self
      = ⟨.ok .Qnil, { self with e := { self.e with fd := 0 } }, [.sys_close self.e.fd]⟩ := by
    simp [ellclose, hfd]
  have hrest : ∀ m, close_times m (ellclose self).self
        = ({ self with e := { self.e with fd := 0 } }, [])
      ∧ close_times_raises m (ellclose self).self = false := by
    intro m
    rw [hc]
    exact close_times_closed m _ (le_refl _)
  have hfree : (endpoint_free (close_times (n + 1) self).1.e).filter Event.isClose = [] := by
    simp only [close_times, (hrest n).1]
    unfold endpoint_free
    simp only [List.filter_append]
    split_ifs <;> simp_all [Event.isClose]
  refine ⟨?_, ?_, ?_, ?_, ?_, hfree, ?_⟩
  · simp only [close_times_raises]
    rw [(hrest n).2]
    simp [hc]
  · rw [hc]
  · intro m
    rw [(hrest m).1]
  · simp only [close_times, (hrest n).1]
    simp [hc]
  · simp only [close_times, (hrest n).1]
    simp [isOpen]
  · rw [List.filter_append, hfree]
    simp only [close_times, (hrest n).1]
    simp [hc, Event.isClose]

/-- C4, at the sample endpoint closed three times. -/
theorem ellclose_idempotent_witness :
    isOpen sample_endpoint ∧
    close_times_raises 3 sample_endpoint = false ∧
    (close_times 3 sample_endpoint).2 = [Event.sys_close 5] ∧
    ¬ isOpen (close_times 3 sample_endpoint).1 ∧
    ((close_times 3 sample_endpoint).2 ++ endpoint_free (close_times 3 sample_endpoint).1.e).filter
        Event.isClose = [Event.sys_close 5] :=
  have h := ellclose_idempotent sample_endpoint 2 (by decide)
  ⟨by decide, h.1, h.2.2.2.1, h.2.2.2.2.1, h.2.2.2.2.2.2⟩

/-! ### Initialisation -/

/-- Whatever happens in `ellinit`, the struct holds the return value of
`socket` afterwards and nothing is closed. -/
theorem ellinit_keeps_socket (socket_ans events_ans initmsg_ans : sysret)
    (self : rb_endpoint) (oh : Option options) :
    (ellinit socket_ans events_ans initmsg_ans self oh).self.e.fd = socket_ans.rc ∧
    (ellinit socket_ans events_ans initmsg_ans self oh).trace.filter Event.isClose = [] := by
  unfold ellinit
  simp only []
  split_ifs <;> (try split) <;> (try split) <;> (try split) <;> simp [Event.isClose]

/-- A stream count that cannot be converted raises a TypeError or a
RangeError, never a SystemCallError. -/
theorem stream_count_raise (v : VALUE) (x : Exn) (h : stream_count v = .raise x) :
    x = .TypeError ∨ x = .RangeError := by
  unfold stream_count at h
  split_ifs at h
  cases v with
  | Fixnum n =>
    simp only [NUM2UINT] at h
    split_ifs at h
    right; injection h with h; exact h.symm
  | _ =>
    simp only [NUM2UINT] at h
    left; injection h with h; exact h.symm

/-- C5, refuted as stated: `socket` answers descriptor 5 and the notification
`setsockopt` fails; `init` raises the SystemCallError and the endpoint is
left Open with descriptor 5 stored and not closed.  The same holds when the
stream-count `setsockopt` fails. -/
theorem ellinit_setsockopt_failure_keeps_descriptor :
    (ellinit ⟨5, 0⟩ ⟨-1, 22⟩ ⟨0, 0⟩ endpoint_alloc none).out
      = .raise (.SystemCallError "notification setsockopt(2)" 22) ∧
    isOpen (ellinit ⟨5, 0⟩ ⟨-1, 22⟩ ⟨0, 0⟩ endpoint_alloc none).self ∧
    (ellinit ⟨5, 0⟩ ⟨-1, 22⟩ ⟨0, 0⟩ endpoint_alloc none).self.e.fd = 5 ∧
    (ellinit ⟨5, 0⟩ ⟨-1, 22⟩ ⟨0, 0⟩ endpoint_alloc none).trace
      = [.sys_socket PF_INET SOCK_STREAM IPPROTO_SCTP, .sys_setsockopt_events 5 1 0 0] ∧
    (ellinit ⟨5, 0⟩ ⟨0, 0⟩ ⟨-1, 22⟩ endpoint_alloc
        (some ⟨.Qnil, .Qtrue, .Fixnum 5, .Qnil⟩)).out
      = .raise (.SystemCallError "initmsg setsockopt(2)" 22) ∧
    isOpen (ellinit ⟨5, 0⟩ ⟨0, 0⟩ ⟨-1, 22⟩ endpoint_alloc
        (some ⟨.Qnil, .Qtrue, .Fixnum 5, .Qnil⟩)).self := by
  refine ⟨by rfl, by decide, by rfl, by rfl, by rfl, by decide⟩

/-- C5 as amended: when `init` fails with a SystemCallError, either `socket`
failed, and then the endpoint is Closed (the struct holds -1) after the one
`socket` call; or one of the two `setsockopt` calls failed, and then the new
descriptor stays stored in the endpoint, which is Open when the descriptor is
positive, nothing is closed, and the destructor is what closes it. -/
theorem ellinit_failure_state (socket_ans events_ans initmsg_ans : sysret)
    (self : rb_endpoint) (oh : Option options)
    (hfail : isSystemError (ellinit socket_ans events_ans initmsg_ans self oh).out = true) :
    (socket_ans.rc = -1 ∨ events_ans.rc ≠ 0 ∨ initmsg_ans.rc ≠ 0) ∧
    (socket_ans.rc = -1 →
      ¬ isOpen (ellinit socket_ans events_ans initmsg_ans self oh).self ∧
      (ellinit socket_ans events_ans initmsg_ans self oh).trace.length = 1) ∧
    (socket_ans.rc ≠ -1 →
      (events_ans.rc ≠ 0 ∨ initmsg_ans.rc ≠ 0) ∧
      (ellinit socket_ans events_ans initmsg_ans self oh).self.e.fd = socket_ans.rc ∧
      (ellinit socket_ans events_ans initmsg_ans self oh).trace.filter Event.isClose = [] ∧
      (0 < socket_ans.rc →
        isOpen (ellinit socket_ans events_ans initmsg_ans self oh).self ∧
        Event.sys_close socket_ans.rc
          ∈ endpoint_free (ellinit socket_ans events_ans initmsg_ans self oh).self.e)) := by
  obtain ⟨hfd, hnoclose⟩ := ellinit_keeps_socket socket_ans events_ans initmsg_ans self oh
  have hcause : socket_ans.rc ≠ -1 → (events_ans.rc ≠ 0 ∨ initmsg_ans.rc ≠ 0) := by
    intro hs
    by_contra hcon
    push_neg at hcon
    revert hfail
    unfold ellinit
    simp only [hs, hcon.1, hcon.2, if_false, ne_eq, not_true_eq_false]
    cases oh with
    | none => simp [isSystemError]
    | some o =>
      simp only []
      split
      · rename_i x hx
        rcases stream_count_raise _ _ hx with h | h <;> simp [isSystemError, h]
      · split
        · rename_i x hx
          rcases stream_count_raise _ _ hx with h | h <;> simp [isSystemError, h]
        · simp [isSystemError]
  refine ⟨?_, ?_, ?_⟩
  · by_cases hs : socket_ans.rc = -1
    · exact Or.inl hs
    · exact Or.inr (hcause hs)
  · intro hs
    refine ⟨?_, ?_⟩
    · simp [isOpen, hfd, hs]
    · unfold ellinit
      simp [hs]
  · intro hs
    refine ⟨hcause hs, hfd, hnoclose, ?_⟩
    intro hpos
    refine ⟨?_, ?_⟩
    · simpa [isOpen, hfd] using hpos
    · unfold endpoint_free
      simp [hfd, hpos]

/-- C5 as amended, at the failing notification `setsockopt`: the endpoint
stays Open on descriptor 5 and the destructor closes it. -/
theorem ellinit_failure_state_witness :
    isSystemError (ellinit ⟨5, 0⟩ ⟨-1, 22⟩ ⟨0, 0⟩ endpoint_alloc none).out = true ∧
    isOpen (ellinit ⟨5, 0⟩ ⟨-1, 22⟩ ⟨0, 0⟩ endpoint_alloc none).self ∧
    Event.sys_close 5 ∈ endpoint_free (ellinit ⟨5, 0⟩ ⟨-1, 22⟩ ⟨0, 0⟩ endpoint_alloc none).self.e :=
  ⟨by rfl,
    ((ellinit_failure_state ⟨5, 0⟩ ⟨-1, 22⟩ ⟨0, 0⟩ endpoint_alloc none (by rfl)).2.2
      (by decide)).2.2.2 (by decide)⟩

/-! ### Blocking mode -/

/-- The events of building the arguments of `sctp_sendmsg` hold no send. -/
theorem sendmsg_args_no_send (gai : gai_answer) (self : rb_endpoint) (msg : message) :
    (sendmsg_args gai self msg).trace.filter Event.isSend = [] := by
  have hsock : ∀ h p, (ellsockaddr gai self h p .Qfalse).trace.filter Event.isSend = [] := by
    intro h p
    unfold ellsockaddr
    simp only []
    split
    · split_ifs <;> simp [Event.isSend]
    · split_ifs <;> (try split) <;> simp [Event.isSend]
  have hdest : (sendmsg_dest gai self msg).trace.filter Event.isSend = [] := by
    unfold sendmsg_dest
    simp only []
    split
    · split_ifs <;> simp [Event.isSend]
    · split_ifs <;> (try split) <;> simp [Event.isSend, List.filter_append, hsock]
  unfold sendmsg_args
  simp only []
  split
  · exact hdest
  · split <;> split_ifs <;> simp [Event.isSend, List.filter_append, hdest]

/-- The two `while` loops of blocking mode, in `ellaccept` and in
`ellrecvmsg`, run one round: a failed attempt raises the SystemCallError of
its error code, whichever it is. -/
theorem blocking_loops_one_round (self : rb_endpoint) (hopen : isOpen self)
    (hblock : self.e.blocking ≠ 0) :
    (∀ (a : accept_answer) (rest : List accept_answer), a.rc < 0 →
      ellaccept (a :: rest) self
        = some ⟨.raise (.SystemCallError "accept(2)" a.errno), self,
            [.wait_fd self.e.fd, .sys_accept self.e.fd]⟩) ∧
    (∀ (a : recv_answer) (rest : List recv_answer) (maxlen : Nat), a.rc < 0 →
      ellrecvmsg (a :: rest) self maxlen
        = some ⟨.raise (.SystemCallError "sctp_recvmsg(2)" a.errno), self,
            [.wait_fd self.e.fd, .sys_recvmsg self.e.fd maxlen]⟩) := by
  have hfd : ¬ self.e.fd ≤ 0 := not_le.mpr hopen
  refine ⟨?_, ?_⟩
  · intro a rest hrc
    unfold ellaccept
    simp [hfd, hblock, accept_blocking, hrc, rb_sys_fail]
  · intro a rest maxlen hrc
    unfold ellrecvmsg
    rw [if_neg hfd, recvmsg_loop]
    simp [hrc, hblock, rb_sys_fail, recv_attempt]

/-- C6, refuted as stated: in blocking mode a send interrupted by a signal
(EINTR) is not retried; `sendmsg` raises the SystemCallError for EINTR after
its one attempt. -/
theorem ellsendmsg_blocking_interrupted :
    sample_endpoint.e.blocking ≠ 0 ∧ isOpen sample_endpoint ∧
    ellsendmsg sample_gai ⟨-1, EINTR⟩ sample_endpoint ⟨"ping", none, none, none, none⟩
      = ⟨.raise (.SystemCallError "sctp_sendmsg(2)" EINTR), sample_endpoint,
          [.msg_funcall "string",
           .sys_sendmsg ⟨5, "ping", 4, none, 0, 0, 0, 0, 0, 0⟩]⟩ := by
  refine ⟨by decide, by decide, by rfl⟩

/-- C6 as amended: on an Open endpoint in blocking mode `sendmsg` makes one
send attempt and raises the SystemCallError of any failure of it, EINTR
included; `accept` and `recvmsg` raise the SystemCallError of a failed
attempt whose error is not EINTR (for `recvmsg` also after any number of
notifications). -/
theorem blocking_failure_raises (self : rb_endpoint) (hopen : isOpen self)
    (hblock : self.e.blocking ≠ 0) :
    (∀ (gai : gai_answer) (ans : sysret) (msg : message) (args : llsendmsg_args_t),
      ans.rc < 0 → (sendmsg_args gai self msg).out = .ok args →
      ellsendmsg gai ans self msg
        = ⟨.raise (.SystemCallError "sctp_sendmsg(2)" ans.errno),
            (sendmsg_args gai self msg).self,
            (sendmsg_args gai self msg).trace ++ [.sys_sendmsg args]⟩ ∧
      ((ellsendmsg gai ans self msg).trace.filter Event.isSend).length = 1) ∧
    (∀ (a : accept_answer) (rest : List accept_answer),
      a.rc < 0 → a.errno ≠ EINTR →
      ellaccept (a :: rest) self
        = some ⟨.raise (.SystemCallError "accept(2)" a.errno), self,
            [.wait_fd self.e.fd, .sys_accept self.e.fd]⟩) ∧
    (∀ (ns : List recv_answer) (a : recv_answer) (rest : List recv_answer) (maxlen : Nat),
      (∀ n ∈ ns, is_notification n) → a.rc < 0 → a.errno ≠ EINTR →
      ellrecvmsg (ns ++ a :: rest) self maxlen
        = some ⟨.raise (.SystemCallError "sctp_recvmsg(2)" a.errno), self,
            dispatch_events self maxlen ns ++ recv_attempt self maxlen⟩) := by
  have hfd : ¬ self.e.fd ≤ 0 := not_le.mpr hopen
  refine ⟨?_, ?_, ?_⟩
  · intro gai ans msg args hrc hargs
    have hrun : ellsendmsg gai ans self msg
        = ⟨.raise (.SystemCallError "sctp_sendmsg(2)" ans.errno),
            (sendmsg_args gai self msg).self,
            (sendmsg_args gai self msg).trace ++ [.sys_sendmsg args]⟩ := by
      unfold ellsendmsg
      simp [hfd, hargs, hblock, hrc, rb_sys_fail]
    refine ⟨hrun, ?_⟩
    rw [hrun]
    simp [List.filter_append, sendmsg_args_no_send, Event.isSend]
  · intro a rest hrc _
    unfold ellaccept
    simp [hfd, hblock, accept_blocking, hrc, rb_sys_fail]
  · intro ns a rest maxlen hns hrc _
    unfold ellrecvmsg
    rw [if_neg hfd, recvmsg_loop_notifications self maxlen ns (a :: rest) hns, recvmsg_loop]
    simp [hrc, hblock, rb_sys_fail]

/-- C6 as amended, at the sample endpoint: a send that fails with EINTR and a
receive that fails with ECONNRESET. -/
theorem blocking_failure_raises_witness :
    isOpen sample_endpoint ∧ sample_endpoint.e.blocking ≠ 0 ∧
    ellsendmsg sample_gai ⟨-1, EINTR⟩ sample_endpoint sample_message
      = ⟨.raise (.SystemCallError "sctp_sendmsg(2)" EINTR),
          (sendmsg_args sample_gai sample_endpoint sample_message).self,
          (sendmsg_args sample_gai sample_endpoint sample_message).trace
            ++ [.sys_sendmsg ⟨5, "ping", 4, some sample_addr, 16, 0, 0, 2, 0, 0⟩]⟩ ∧
    ellrecvmsg [sample_notification, sample_recv_failure ECONNRESET] sample_endpoint 4096
      = some ⟨.raise (.SystemCallError "sctp_recvmsg(2)" ECONNRESET), sample_endpoint,
          dispatch_events sample_endpoint 4096 [sample_notification]
            ++ recv_attempt sample_endpoint 4096⟩ :=
  have h := blocking_failure_raises sample_endpoint (by decide) (by decide)
  ⟨by decide, by decide,
    (h.1 sample_gai ⟨-1, EINTR⟩ sample_message
      ⟨5, "ping", 4, some sample_addr, 16, 0, 0, 2, 0, 0⟩ (by decide) (by rfl)).1,
    h.2.2 [sample_notification] (sample_recv_failure ECONNRESET) [] 4096 (by decide)
      (by decide) (by decide)⟩

/-! ### Non-blocking mode -/

/-- One receive attempt is one `sctp_recvmsg` call. -/
theorem recv_attempt_count (self : rb_endpoint) (maxlen : Nat) :
    ((recv_attempt self maxlen).filter Event.isRecv).length = 1 := by
  unfold recv_attempt
  split_ifs <;> simp [Event.isRecv]

/-- The dispatcher receives nothing. -/
theorem ellnotdispatch_no_recv (snp : sctp_notification) (host port : VALUE) :
    (ellnotdispatch snp host port).2.filter Event.isRecv = [] := by
  unfold ellnotdispatch
  split_ifs <;> simp [Event.isRecv]

/-- Passing over `ns` notifications takes as many receive attempts. -/
theorem dispatch_events_count (self : rb_endpoint) (maxlen : Nat) (ns : List recv_answer) :
    ((dispatch_events self maxlen ns).filter Event.isRecv).length = ns.length := by
  induction ns with
  | nil => simp [dispatch_events]
  | cons a ns ih =>
    simp only [dispatch_events, List.filter_append, List.length_append, recv_attempt_count,
      ellnotdispatch_no_recv, ih, List.length_nil, List.length_cons]
    omega

/-- The receive loop is left at the first answer that is not a notification,
after the one attempt that brought it. -/
theorem recvmsg_loop_stop (self : rb_endpoint) (maxlen : Nat) (a : recv_answer)
    (rest : List recv_answer) (ha : ¬ is_notification a) :
    ∃ o, recvmsg_loop self maxlen (a :: rest) = some (o, recv_attempt self maxlen) := by
  unfold recvmsg_loop
  by_cases hrc : a.rc < 0
  · simp only [hrc, if_true]
    split_ifs <;> exact ⟨_, rfl⟩
  · simp only [hrc, if_false]
    by_cases hdec : decodable a.from_
    · have hflag : a.flags &&& MSG_NOTIFICATION = 0 := by
        by_contra hne
        exact ha ⟨not_lt.mp hrc, hdec, hne⟩
      simp only [elladdrsock_decodable _ hdec, hflag, ne_eq, not_true_eq_false, if_false]
      exact ⟨_, rfl⟩
    · have hraise : elladdrsock a.from_ = .raise (.Fatal "message from the moon") := by
        unfold elladdrsock
        have h1 : ¬ a.from_.sa_family = AF_INET := fun h => hdec (Or.inl h)
        have h2 : ¬ a.from_.sa_family = AF_INET6 := fun h => hdec (Or.inr h)
        simp [h1, h2]
      simp only [hraise]
      exact ⟨_, rfl⟩

/-- C8: on an Open endpoint in non-blocking mode `accept` makes its one
attempt; when that fails with EAGAIN or EWOULDBLOCK it returns nil, raising
nothing and allocating no endpoint; it raises a SystemCallError exactly when
the attempt fails with another error code. -/
theorem ellaccept_nonblocking (self : rb_endpoint) (a : accept_answer)
    (rest : List accept_answer) (hopen : isOpen self) (hnb : self.e.blocking = 0) :
    ∃ r, ellaccept (a :: rest) self = some r ∧
      (a.rc < 0 → a.errno = EAGAIN ∨ a.errno = EWOULDBLOCK →
        r = ⟨.ok none, self, [.sys_accept self.e.fd]⟩) ∧
      (isSystemError r.out = true ↔ a.rc < 0 ∧ a.errno ≠ EAGAIN ∧ a.errno ≠ EWOULDBLOCK) ∧
      (a.rc < 0 → Event.endpoint_alloc ∉ r.trace) := by
  have hfd : ¬ self.e.fd ≤ 0 := not_le.mpr hopen
  unfold ellaccept
  simp only [if_neg hfd, hnb, ne_eq, not_true_eq_false, if_false, accept_nonblocking]
  by_cases hrc : a.rc < 0
  · by_cases hwb : a.errno = EAGAIN ∨ a.errno = EWOULDBLOCK
    · refine ⟨⟨.ok none, self, [.sys_accept self.e.fd]⟩, by simp [hrc, hwb], ?_, ?_, ?_⟩
      · intro _ _; rfl
      · simp only [isSystemError, hrc, true_and]
        constructor
        · intro h; exact absurd h (by decide)
        · intro h
          rcases hwb with h1 | h1
          · exact absurd h1 h.1
          · exact absurd h1 h.2
      · intro _; simp
    · refine ⟨⟨rb_sys_fail "accept(2)" a.errno, self, [.sys_accept self.e.fd]⟩,
        by simp [hrc, hwb, rb_sys_fail], ?_, ?_, ?_⟩
      · intro _ h; exact absurd h hwb
      · simp only [isSystemError, rb_sys_fail, hrc, true_and, true_iff]
        exact not_or.mp hwb
      · intro _; simp
  · simp only [hrc, if_false]
    refine ⟨_, rfl, ?_, ?_, ?_⟩
    · intro h; exact h.elim
    · simp only [hrc, false_and, iff_false]
      unfold accept_finish
      have hin : ∀ x, ellinit_accepted endpoint_alloc a.rc a.from_ self = .raise x →
          x = .Fatal "message from the moon" := by
        intro x hx
        unfold ellinit_accepted elladdrsock at hx
        simp only [] at hx
        split_ifs at hx
        simp_all
      split
      · rename_i x hx
        rw [hin x hx]
        simp [isSystemError]
      · simp [isSystemError]
    · intro h; exact h.elim

/-- C8, at the sample endpoint with no pending connection. -/
theorem ellaccept_nonblocking_witness :
    isOpen sample_nonblocking ∧ sample_nonblocking.e.blocking = 0 ∧
    ellaccept [⟨-1, EAGAIN, sample_addr_unspec⟩] sample_nonblocking
      = some ⟨.ok none, sample_nonblocking, [.sys_accept 5]⟩ := by
  obtain ⟨r, hr, hnil, -, -⟩ := ellaccept_nonblocking sample_nonblocking
    ⟨-1, EAGAIN, sample_addr_unspec⟩ [] (by decide) (by decide)
  rw [hnil (by decide) (by decide)] at hr
  exact ⟨by decide, by decide, hr⟩

/-! ### Sending -/

/-- What `sendmsg_args` answers when it answers: destination and stream
number come from `sendmsg_dest` and `sendmsg_stream`, the rest is fixed. -/
theorem sendmsg_args_ok (gai : gai_answer) (self : rb_endpoint) (msg : message)
    (args : llsendmsg_args_t) (h : (sendmsg_args gai self msg).out = .ok args) :
    ∃ dest stream_no, (sendmsg_dest gai self msg).out = .ok dest ∧
      sendmsg_stream msg = .ok stream_no ∧
      args = { fd := self.e.fd, msg := msg.string, len := msg.string.length,
               to_ := dest,
               tolen := match dest with
                 | some sa => sa.sa_len
                 | none => 0,
               ppid := 0, flags := 0, stream_no := stream_no, timetolive := 0,
               context := 0 } := by
  unfold sendmsg_args at h
  simp only [] at h
  split at h
  · simp at h
  · rename_i dest hdest
    split at h
    · simp at h
    · rename_i stream_no hstream
      refine ⟨dest, stream_no, hdest, hstream, ?_⟩
      simp only [Outcome.ok.injEq] at h
      exact h.symm

/-- A send event among the events of `ellsendmsg` carries the arguments
`sendmsg_args` built. -/
theorem ellsendmsg_send_event (gai : gai_answer) (ans : sysret) (self : rb_endpoint)
    (msg : message) (args : llsendmsg_args_t)
    (h : Event.sys_sendmsg args ∈ (ellsendmsg gai ans self msg).trace) :
    (sendmsg_args gai self msg).out = .ok args := by
  have hno : Event.sys_sendmsg args ∉ (sendmsg_args gai self msg).trace := by
    intro hin
    have : Event.sys_sendmsg args ∈ (sendmsg_args gai self msg).trace.filter Event.isSend :=
      List.mem_filter.mpr ⟨hin, rfl⟩
    rw [sendmsg_args_no_send] at this
    exact absurd this (List.not_mem_nil _)
  unfold ellsendmsg at h
  by_cases hfd : self.e.fd ≤ 0
  · simp [hfd] at h
  · simp only [if_neg hfd] at h
    cases hout : (sendmsg_args gai self msg).out with
    | raise x =>
      simp only [hout] at h
      exact absurd h hno
    | ok args0 =>
      simp only [hout] at h
      have hmem : Event.sys_sendmsg args
          ∈ (sendmsg_args gai self msg).trace ++ [Event.sys_sendmsg args0] := by
        split_ifs at h <;> exact h
      rcases List.mem_append.mp hmem with h1 | h1
      · exact absurd h1 hno
      · simp only [List.mem_singleton, Event.sys_sendmsg.injEq] at h1
        rw [h1]

/-- A combined address on the message is the destination. -/
theorem sendmsg_dest_sockaddr (gai : gai_answer) (self : rb_endpoint) (msg : message)
    (sa : sockaddr) (h : msg.sockaddr = some (some sa)) :
    (sendmsg_dest gai self msg).out = .ok (some sa) := by
  unfold sendmsg_dest
  simp [h, Option.join]

/-- Without a combined address, host and port of the message are resolved
when both are there. -/
theorem sendmsg_dest_resolve (gai : gai_answer) (self : rb_endpoint) (msg : message)
    (h : msg.sockaddr.join = none) (hh : RTEST (msg.host.getD .Qnil) = true)
    (hp : RTEST (msg.port.getD .Qnil) = true) :
    (sendmsg_dest gai self msg).out
      = match (ellsockaddr gai self (msg.host.getD .Qnil) (msg.port.getD .Qnil) .Qfalse).out
          with
        | .ok sa => .ok (some sa)
        | .raise x => .raise x := by
  unfold sendmsg_dest
  simp only [h, hh, hp, Bool.and_self, if_true]
  split <;> simp_all

/-- Without a combined address and without host or port there is no
destination. -/
theorem sendmsg_dest_none (gai : gai_answer) (self : rb_endpoint) (msg : message)
    (h : msg.sockaddr.join = none)
    (hhp : RTEST (msg.host.getD .Qnil) = false ∨ RTEST (msg.port.getD .Qnil) = false) :
    (sendmsg_dest gai self msg).out = .ok none := by
  have hboth : (RTEST (msg.host.getD .Qnil) && RTEST (msg.port.getD .Qnil)) = false := by
    rcases hhp with h1 | h1 <;> simp [h1]
  unfold sendmsg_dest
  simp only [h, hboth, Bool.false_eq_true, if_false]

/-- C9: on an Open endpoint, the arguments `sendmsg` hands to `sctp_sendmsg`
are the descriptor, the payload of the message and its length; as
destination the combined address of the message when it has one, else the
address `resolve(host, port, non-passive)` answers when host and port of the
message are both there, else the null address of length 0; as stream number
the stream of the message when it is in 0..65535 and 0 when the message has
no stream; protocol identifier, flags, time-to-live and context 0.  Once the
arguments are built the call is made, and on success `sendmsg` returns the
byte count of the call. -/
theorem ellsendmsg_arguments (self : rb_endpoint) (gai : gai_answer) (ans : sysret)
    (msg : message) (hopen : isOpen self) :
    (∀ args, Event.sys_sendmsg args ∈ (ellsendmsg gai ans self msg).trace →
      args.fd = self.e.fd ∧ args.msg = msg.string ∧ args.len = msg.string.length ∧
      args.ppid = 0 ∧ args.flags = 0 ∧ args.timetolive = 0 ∧ args.context = 0 ∧
      (∀ sa, msg.sockaddr = some (some sa) → args.to_ = some sa ∧ args.tolen = sa.sa_len) ∧
      (msg.sockaddr.join = none → RTEST (msg.host.getD .Qnil) = true →
        RTEST (msg.port.getD .Qnil) = true →
        ∃ sa, (ellsockaddr gai self (msg.host.getD .Qnil) (msg.port.getD .Qnil) .Qfalse).out
            = .ok sa ∧ args.to_ = some sa ∧ args.tolen = sa.sa_len) ∧
      (msg.sockaddr.join = none →
        RTEST (msg.host.getD .Qnil) = false ∨ RTEST (msg.port.getD .Qnil) = false →
        args.to_ = none ∧ args.tolen = 0) ∧
      (∀ n : Int, msg.stream = some (.Fixnum n) → 0 ≤ n → n ≤ 65535 →
        (args.stream_no : Int) = n) ∧
      (msg.stream = none → args.stream_no = 0)) ∧
    (∀ args, (sendmsg_args gai self msg).out = .ok args →
      (ellsendmsg gai ans self msg).trace
        = (sendmsg_args gai self msg).trace ++ [.sys_sendmsg args] ∧
      (0 ≤ ans.rc → (ellsendmsg gai ans self msg).out = .ok (some ans.rc))) := by
  have hfd : ¬ self.e.fd ≤ 0 := not_le.mpr hopen
  constructor
  · intro args hmem
    obtain ⟨dest, stream_no, hdest, hstream, hargs⟩ :=
      sendmsg_args_ok gai self msg args (ellsendmsg_send_event gai ans self msg args hmem)
    subst hargs
    refine ⟨rfl, rfl, rfl, rfl, rfl, rfl, rfl, ?_, ?_, ?_, ?_, ?_⟩
    · intro sa hsa
      rw [sendmsg_dest_sockaddr gai self msg sa hsa, Outcome.ok.injEq] at hdest
      subst hdest
      exact ⟨rfl, rfl⟩
    · intro hnone hh hp
      rw [sendmsg_dest_resolve gai self msg hnone hh hp] at hdest
      split at hdest
      · rename_i sa hsa
        rw [Outcome.ok.injEq] at hdest
        subst hdest
        exact ⟨sa, hsa, rfl, rfl⟩
      · simp at hdest
    · intro hnone hhp
      rw [sendmsg_dest_none gai self msg hnone hhp, Outcome.ok.injEq] at hdest
      subst hdest
      exact ⟨rfl, rfl⟩
    · intro n hn h0 h1
      unfold sendmsg_stream NUM2UINT at hstream
      have hr1 : ¬ (n < -2147483648 ∨ 4294967295 < n) := by omega
      simp only [hn, Option.getD_some, reduceCtorEq, if_false, hr1, Outcome.ok.injEq]
        at hstream
      show (stream_no : Int) = n
      omega
    · intro hn
      unfold sendmsg_stream at hstream
      simp only [hn, Option.getD_none, if_true, Outcome.ok.injEq] at hstream
      exact hstream.symm
  · intro args hargs
    unfold ellsendmsg
    simp only [if_neg hfd, hargs]
    refine ⟨?_, ?_⟩
    · split_ifs <;> rfl
    · intro hrc
      simp [not_lt.mpr hrc]

/-- C9, at the sample message: host and port are resolved, the IPv4 entry of
the answer is the destination, stream 2, and the four bytes sent come back as
the result. -/
theorem ellsendmsg_arguments_witness :
    isOpen sample_endpoint ∧
    (ellsendmsg sample_gai ⟨4, 0⟩ sample_endpoint sample_message).trace
      = (sendmsg_args sample_gai sample_endpoint sample_message).trace
          ++ [.sys_sendmsg ⟨5, "ping", 4, some sample_addr, 16, 0, 0, 2, 0, 0⟩] ∧
    (ellsendmsg sample_gai ⟨4, 0⟩ sample_endpoint sample_message).out = .ok (some 4) :=
  have h := (ellsendmsg_arguments sample_endpoint sample_gai ⟨4, 0⟩ sample_message
    (by decide)).2 ⟨5, "ping", 4, some sample_addr, 16, 0, 0, 2, 0, 0⟩ (by rfl)
  ⟨by decide, h.1, h.2 (by decide)⟩

/-! ### Resolution -/

/-- The seek loop stops at the first entry of the wanted family. -/
theorem seek_eq_some (af : Int) (l : List addrinfo) (tai : addrinfo) :
    seek af l = some tai ↔
      ∃ pre post, l = pre ++ tai :: post ∧ (∀ x ∈ pre, x.ai_family ≠ af) ∧ tai.ai_family = af := by
  induction l with
  | nil => simp [seek]
  | cons a l ih =>
    unfold seek
    by_cases ha : a.ai_family = af
    · simp only [ha, ne_eq, not_true_eq_false, if_false, Option.some.injEq]
      constructor
      · intro h
        subst h
        exact ⟨[], l, rfl, by simp, ha⟩
      · rintro ⟨pre, post, hl, hpre, -⟩
        cases pre with
        | nil =>
          simp only [List.nil_append, List.cons.injEq] at hl
          exact hl.1
        | cons b pre =>
          simp only [List.cons_append, List.cons.injEq] at hl
          exact absurd (hl.1 ▸ ha) (hpre b (List.mem_cons_self _ _))
    · simp only [ha, ne_eq, not_false_eq_true, if_true, ih]
      constructor
      · rintro ⟨pre, post, hl, hpre, htai⟩
        refine ⟨a :: pre, post, by simp [hl], ?_, htai⟩
        intro x hx
        rcases List.mem_cons.mp hx with h | h
        · rw [h]; exact ha
        · exact hpre x h
      · rintro ⟨pre, post, hl, hpre, htai⟩
        cases pre with
        | nil =>
          simp only [List.nil_append, List.cons.injEq] at hl
          exact absurd (hl.1 ▸ htai) ha
        | cons b pre =>
          simp only [List.cons_append, List.cons.injEq] at hl
          exact ⟨pre, post, hl.2, fun x hx => hpre x (List.mem_cons_of_mem _ hx), htai⟩

/-- The seek loop runs off the list exactly when no entry has the wanted family. -/
theorem seek_eq_none (af : Int) (l : List addrinfo) :
    seek af l = none ↔ ∀ x ∈ l, x.ai_family ≠ af := by
  induction l with
  | nil => simp [seek]
  | cons a l ih =>
    unfold seek
    by_cases ha : a.ai_family = af
    · simp [ha]
    · simp [ha, ih]

/-- Reading a slot after storing through it, and reading the other slot. -/
theorem get_set_ai (self : rb_endpoint) (p : Bool) (l : List addrinfo) :
    get_ai (set_ai self p l) p = l ∧ get_ai (set_ai self p l) (!p) = get_ai self (!p) ∧
    (set_ai self p l).e.af = self.e.af := by
  cases p <;> simp [get_ai, set_ai]

/-- The run of `ellsockaddr` when the host is nil, false or a String: the
outcome by the answer of the resolver, and the endpoint afterwards. -/
theorem ellsockaddr_run (gai : gai_answer) (self : rb_endpoint) (host port passive : VALUE)
    (hhost : RTEST host = false ∨ ∃ s, host = .Str s) :
    (ellsockaddr gai self host port passive).out
      = (if gai.rc ≠ 0 then rb_sys_fail_unset "getaddrinfo(3)" gai.errno
         else match seek self.e.af gai.res with
           | some tai => .ok tai.ai_addr
           | none => cannot_resolve host) ∧
    (ellsockaddr gai self host port passive).self
      = (if gai.rc ≠ 0 then set_ai self (RTEST passive) []
         else set_ai self (RTEST passive) gai.res) := by
  have hset : ∀ l, set_ai (set_ai self (RTEST passive) []) (RTEST passive) l
      = set_ai self (RTEST passive) l := by
    intro l
    cases RTEST passive <;> rfl
  have hclear : (if get_ai self (RTEST passive) = [] then self
      else set_ai self (RTEST passive) []) = set_ai self (RTEST passive) [] := by
    split_ifs with h
    · cases hp : RTEST passive <;> simp only [hp, get_ai] at h <;>
        simp [set_ai, ← h]
    · rfl
  have hv : ∃ hostcp, (if RTEST host = true then
        match StringValue host with
        | .ok h => Outcome.ok (some h)
        | .raise x => .raise x
      else .ok none) = Outcome.ok hostcp := by
    rcases hhost with h | ⟨s, h⟩
    · exact ⟨none, by simp [h]⟩
    · exact ⟨some s, by simp [h, RTEST, StringValue]⟩
  obtain ⟨hostcp, hv⟩ := hv
  unfold ellsockaddr
  simp only [hv, hclear, hset]
  by_cases hrc : gai.rc = 0
  · simp only [hrc, ne_eq, not_true_eq_false, if_false]
    split <;> simp
  · simp [hrc]

/-- What `ellsockaddr` does for every resolver answer, with a host that is
nil, false or a String: it returns the address of the first entry of the
answer whose family is the family of the endpoint, and only such an address;
it raises the RuntimeError of the failed resolution exactly when the resolver
succeeded with no entry of that family and the host is a String; it raises a
SystemCallError exactly when the resolver call failed and left a nonzero
`errno`.  On success the answer is stored in the slot of the purpose (bind
when passive, destination otherwise), and the other slot is never touched. -/
theorem ellsockaddr_first_match (gai : gai_answer) (self : rb_endpoint)
    (host port passive : VALUE) (hhost : RTEST host = false ∨ ∃ s, host = .Str s) :
    (∀ pre tai post, gai.rc = 0 → gai.res = pre ++ tai :: post →
      (∀ x ∈ pre, x.ai_family ≠ self.e.af) → tai.ai_family = self.e.af →
      (ellsockaddr gai self host port passive).out = .ok tai.ai_addr) ∧
    (∀ sa, (ellsockaddr gai self host port passive).out = .ok sa →
      gai.rc = 0 ∧
      ∃ pre tai post, gai.res = pre ++ tai :: post ∧ (∀ x ∈ pre, x.ai_family ≠ self.e.af) ∧
        tai.ai_family = self.e.af ∧ sa = tai.ai_addr ∧
        (tai.ai_addr.sa_family = tai.ai_family → sa.sa_family = self.e.af)) ∧
    (isRuntimeError (ellsockaddr gai self host port passive).out = true ↔
      gai.rc = 0 ∧ (∀ x ∈ gai.res, x.ai_family ≠ self.e.af) ∧ ∃ s, host = .Str s) ∧
    (isSystemError (ellsockaddr gai self host port passive).out = true ↔
      gai.rc ≠ 0 ∧ gai.errno ≠ 0) ∧
    (gai.rc = 0 →
      get_ai (ellsockaddr gai self host port passive).self (RTEST passive) = gai.res) ∧
    get_ai (ellsockaddr gai self host port passive).self (!RTEST passive)
      = get_ai self (!RTEST passive) := by
  obtain ⟨hout, hself⟩ := ellsockaddr_run gai self host port passive hhost
  rw [hout, hself]
  have hcr : ∀ v : VALUE, isSystemError (cannot_resolve v : Outcome sockaddr) = false := by
    intro v
    cases v <;> rfl
  have hcrr : ∀ v : VALUE,
      (isRuntimeError (cannot_resolve v : Outcome sockaddr) = true ↔ ∃ s, v = .Str s) := by
    intro v
    cases v <;> simp [cannot_resolve, isRuntimeError]
  have hcok : ∀ (v : VALUE) (sa : sockaddr), (cannot_resolve v : Outcome sockaddr) ≠ .ok sa := by
    intro v sa
    cases v <;> simp [cannot_resolve]
  by_cases hrc : gai.rc = 0
  · simp only [hrc, ne_eq, not_true_eq_false, if_false, true_and, forall_true_left, false_and,
      iff_false]
    refine ⟨?_, ?_, ?_, ?_, (get_set_ai _ _ _).1, (get_set_ai _ _ _).2.1⟩
    · intro pre tai post hl hpre htai
      have : seek self.e.af gai.res = some tai :=
        (seek_eq_some _ _ _).mpr ⟨pre, post, hl, hpre, htai⟩
      rw [this]
    · intro sa hsa
      cases hseek : seek self.e.af gai.res with
      | none =>
        rw [hseek] at hsa
        exact absurd hsa (hcok host sa)
      | some tai =>
        simp only [hseek, Outcome.ok.injEq] at hsa
        obtain ⟨pre, post, hl, hpre, htai⟩ := (seek_eq_some _ _ _).mp hseek
        refine ⟨pre, tai, post, hl, hpre, htai, hsa.symm, ?_⟩
        intro hwf
        rw [← hsa, hwf, htai]
    · rw [← seek_eq_none]
      cases hseek : seek self.e.af gai.res with
      | none => simp [hcrr]
      | some tai => simp [isRuntimeError]
    · cases hseek : seek self.e.af gai.res with
      | none => simp [hcr]
      | some tai => simp [isSystemError]
  · simp only [hrc, ne_eq, not_false_eq_true, if_true, false_and, iff_false, false_implies,
      implies_true, true_and]
    refine ⟨?_, ?_, ?_, (get_set_ai _ _ _).2.1⟩
    · intro sa hsa
      unfold rb_sys_fail_unset rb_sys_fail at hsa
      split_ifs at hsa
    · unfold rb_sys_fail_unset rb_sys_fail
      split_ifs <;> simp [isRuntimeError]
    · unfold rb_sys_fail_unset rb_sys_fail
      split_ifs with h0 <;> simp [isSystemError, h0]

/-- The first-match rule at the sample answer: the IPv6 entry is passed over,
the IPv4 address is returned, and the answer sits in the destination slot. -/
theorem ellsockaddr_first_match_sample :
    (ellsockaddr sample_gai sample_endpoint (.Str "127.0.0.1") (.Str "9000") .Qfalse).out
      = .ok sample_addr ∧
    get_ai (ellsockaddr sample_gai sample_endpoint (.Str "127.0.0.1") (.Str "9000") .Qfalse).self
      false = sample_gai.res :=
  have h := ellsockaddr_first_match sample_gai sample_endpoint (.Str "127.0.0.1")
    (.Str "9000") .Qfalse (Or.inr ⟨"127.0.0.1", rfl⟩)
  ⟨h.1 [⟨AF_INET6, ⟨28, AF_INET6, "::1", 9000⟩⟩] ⟨AF_INET, sample_addr⟩ [] rfl rfl
      (by decide) rfl,
    h.2.2.2.2.1 rfl⟩

/-- C10, the code at the failing inputs.  With no host and no service
`getaddrinfo` fails by its return code (`EAI_NONAME`, -2) and leaves `errno`
at 0: `resolve` ends in `rb_bug`, not in a SystemCallError.  With no host and
an answer that holds no entry of the family of the endpoint, the error
message is built from the string pointer of nil: the run is undefined, not a
RuntimeError. -/
theorem ellsockaddr_failure_not_raised :
    (ellsockaddr ⟨-2, 0, []⟩ sample_endpoint .Qnil .Qnil .Qfalse).out
      = .raise (.Bug "rb_sys_fail(getaddrinfo(3)) - errno == 0") ∧
    isSystemError (ellsockaddr ⟨-2, 0, []⟩ sample_endpoint .Qnil .Qnil .Qfalse).out = false ∧
    (ellsockaddr ⟨0, 0, [⟨AF_INET6, ⟨28, AF_INET6, "::1", 9000⟩⟩]⟩ sample_endpoint
        .Qnil (.Str "9000") .Qtrue).out
      = .raise (.Undefined "RSTRING_PTR of a value that is no String") ∧
    isRuntimeError (ellsockaddr ⟨0, 0, [⟨AF_INET6, ⟨28, AF_INET6, "::1", 9000⟩⟩]⟩
        sample_endpoint .Qnil (.Str "9000") .Qtrue).out = false := by
  refine ⟨by rfl, by rfl, by rfl, by rfl⟩


/-! ### Blocking mode of the descriptor -/

/-- Bits of a natural number that lie outside `n`: from `Nat.ldiff m n = 0`. -/
theorem testBit_of_ldiff_eq_zero (m n : Nat) (h : Nat.ldiff m n = 0) (i : Nat) :
    (m.testBit i && !n.testBit i) = false := by
  rw [← Nat.testBit_ldiff, h, Nat.zero_testBit]

/-- Bits two natural numbers share: from `m &&& n = 0`. -/
theorem testBit_of_and_eq_zero (m n : Nat) (h : m &&& n = 0) (i : Nat) :
    (m.testBit i && n.testBit i) = false := by
  rw [← Nat.testBit_and, h, Nat.zero_testBit]

/-- Setting the bits of `m` in a word of `int` and clearing them again gives
the word back when none of them was set before. -/
theorem land_lor_lnot (fl m : Nat) (h : Int.land fl (m : Int) = 0) :
    Int.land (Int.lor fl (m : Int)) (Int.lnot (m : Int)) = fl := by
  have h0 : fl &&& m = 0 := by
    have : ((fl &&& m : Nat) : Int) = 0 := h
    exact_mod_cast this
  show ((Nat.ldiff (fl ||| m) m : Nat) : Int) = fl
  congr 1
  apply Nat.eq_of_testBit_eq
  intro i
  have hi := testBit_of_and_eq_zero fl m h0 i
  rw [Nat.testBit_ldiff, Nat.testBit_or]
  cases hf : fl.testBit i <;> cases hm : m.testBit i <;> simp_all

/-- The same for a negative word. -/
theorem land_lor_lnot_neg (n m : Nat) (h : Int.land (Int.negSucc n) (m : Int) = 0) :
    Int.land (Int.lor (Int.negSucc n) (m : Int)) (Int.lnot (m : Int)) = Int.negSucc n := by
  have h0 : Nat.ldiff m n = 0 := by
    have : ((Nat.ldiff m n : Nat) : Int) = 0 := h
    exact_mod_cast this
  show Int.negSucc (Nat.ldiff n m ||| m) = Int.negSucc n
  congr 1
  apply Nat.eq_of_testBit_eq
  intro i
  have hi := testBit_of_ldiff_eq_zero m n h0 i
  rw [Nat.testBit_or, Nat.testBit_ldiff]
  cases hf : n.testBit i <;> cases hm : m.testBit i <;> simp_all

/-- After `flags | O_NONBLOCK` the bit is set. -/
theorem land_lor_self (fl : Int) (m : Nat) : Int.land (Int.lor fl (m : Int)) (m : Int) = m := by
  cases fl with
  | ofNat n =>
    show (((n ||| m) &&& m : Nat) : Int) = m
    congr 1
    apply Nat.eq_of_testBit_eq
    intro i
    rw [Nat.testBit_and, Nat.testBit_or]
    cases n.testBit i <;> cases m.testBit i <;> rfl
  | negSucc n =>
    show ((Nat.ldiff m (Nat.ldiff n m) : Nat) : Int) = m
    congr 1
    apply Nat.eq_of_testBit_eq
    intro i
    rw [Nat.testBit_ldiff, Nat.testBit_ldiff]
    cases n.testBit i <;> cases m.testBit i <;> rfl

/-- Set and clear the non-blocking bit of any status-flag word that has it
clear: the word comes back. -/
theorem nonblock_set_clear (fl : Int) (h : Int.land fl O_NONBLOCK = 0) :
    Int.land (Int.lor fl O_NONBLOCK) (Int.lnot O_NONBLOCK) = fl := by
  cases fl with
  | ofNat n => exact land_lor_lnot n 2048 h
  | negSucc n => exact land_lor_lnot_neg n 2048 h

/-- C11: on an Open endpoint in blocking mode whose descriptor has a
status-flag word `fl` with the non-blocking bit clear, `setBlocking(false)`
sets the non-blocking bit (leaving the word `fl | O_NONBLOCK`) and makes the
blocking flag false; `setBlocking(true)` after it stores the original word
`fl` again, bit for bit, and makes the blocking flag true (1, the value
`init` leaves), every other field of the endpoint as it was; neither call
raises, and `llblock?` then answers true. -/
theorem ellblockassign_round_trip (self : rb_endpoint) (fl : Int) (hopen : isOpen self)
    (hblock : self.e.blocking ≠ 0) (hclear : Int.land fl O_NONBLOCK = 0) :
    (ellblockassign fl self .Qfalse).1.out = .ok .Qfalse ∧
    (ellblockassign fl self .Qfalse).2 = Int.lor fl O_NONBLOCK ∧
    Int.land (ellblockassign fl self .Qfalse).2 O_NONBLOCK = O_NONBLOCK ∧
    (ellblockassign fl self .Qfalse).1.self.e.blocking = 0 ∧
    (ellblock (ellblockassign fl self .Qfalse).2 (ellblockassign fl self .Qfalse).1.self).out
      = .ok .Qfalse ∧
    (ellblockassign (ellblockassign fl self .Qfalse).2
        (ellblockassign fl self .Qfalse).1.self .Qtrue).1.out = .ok .Qtrue ∧
    (ellblockassign (ellblockassign fl self .Qfalse).2
        (ellblockassign fl self .Qfalse).1.self .Qtrue).2 = fl ∧
    (ellblockassign (ellblockassign fl self .Qfalse).2
        (ellblockassign fl self .Qfalse).1.self .Qtrue).1.self
      = { self with e := { self.e with blocking := 1 } } ∧
    (self.e.blocking = 1 →
      (ellblockassign (ellblockassign fl self .Qfalse).2
        (ellblockassign fl self .Qfalse).1.self .Qtrue).1.self = self) ∧
    (ellblock fl { self with e := { self.e with blocking := 1 } }).out = .ok .Qtrue := by
  have hfd : ¬ self.e.fd ≤ 0 := not_le.mpr hopen
  have h1 : ellblockassign fl self .Qfalse
      = (⟨.ok .Qfalse, { self with e := { self.e with blocking := 0 } },
          [.sys_fcntl_getfl self.e.fd, .sys_fcntl_setfl self.e.fd (Int.lor fl O_NONBLOCK)]⟩,
         Int.lor fl O_NONBLOCK) := by
    simp [ellblockassign, hfd, RTEST]
  have hset : Int.land (Int.lor fl O_NONBLOCK) O_NONBLOCK = O_NONBLOCK := land_lor_self fl 2048
  have h2 : ellblockassign (Int.lor fl O_NONBLOCK)
        { self with e := { self.e with blocking := 0 } } .Qtrue
      = (⟨.ok .Qtrue, { self with e := { self.e with blocking := 1 } },
          [.sys_fcntl_getfl self.e.fd, .sys_fcntl_setfl self.e.fd fl]⟩, fl) := by
    simp [ellblockassign, hfd, RTEST, nonblock_set_clear fl hclear]
  rw [h1]
  dsimp only
  rw [h2]
  refine ⟨rfl, rfl, hset, rfl, ?_, rfl, rfl, rfl, ?_, ?_⟩
  · have hne : Int.land (Int.lor fl O_NONBLOCK) O_NONBLOCK ≠ 0 := by
      rw [hset]; decide
    simp [ellblock, hfd, hne]
  · intro hb
    cases self with
    | mk e ph pp mc mx cf =>
      cases e with
      | mk fd af st bl la ba =>
        simp only at hb
        subst hb
        rfl
  · simp [ellblock, hfd, hclear]

/-- C11, at the sample endpoint with the flag word `O_RDWR` (2): the word is
2050 in between and 2 again at the end. -/
theorem ellblockassign_round_trip_witness :
    isOpen sample_endpoint ∧ sample_endpoint.e.blocking ≠ 0 ∧ Int.land 2 O_NONBLOCK = 0 ∧
    (ellblockassign 2 sample_endpoint .Qfalse).2 = 2050 ∧
    (ellblockassign (ellblockassign 2 sample_endpoint .Qfalse).2
        (ellblockassign 2 sample_endpoint .Qfalse).1.self .Qtrue).2 = 2 ∧
    (ellblockassign (ellblockassign 2 sample_endpoint .Qfalse).2
        (ellblockassign 2 sample_endpoint .Qfalse).1.self .Qtrue).1.self = sample_endpoint :=
  have h := ellblockassign_round_trip sample_endpoint 2 (by decide) (by decide) (by decide)
  ⟨by decide, by decide, by decide, h.2.1, h.2.2.2.2.2.2.1, h.2.2.2.2.2.2.2.2.1 rfl⟩

end SCTP
